import Mathlib

/-!
Shallow embedding of the per-instrument trading state machine of the
SamoThraceTrader repository (files `brisk/intraday_strategy_base.py` and
`brisk/vwap_failure_strategy.py`), together with proofs about the frozen
claims on that code.

Modelling conventions:
* Python `float` prices and quantities are modelled as exact rationals `ℚ`.
* Python `datetime` values are modelled as integer timestamps in seconds;
  `timedelta(minutes = m)` is `60 * m`; `dt.time()` comparisons are modelled
  through seconds-of-day (`timeOfDay`, i.e. the timestamp modulo 86400).
* Calls to the external gateway are modelled as an effect trace
  (`Effect`) plus an `Env` record holding the gateway's synchronous answers
  (`send_order` result, whether a cancel raises) and the other external
  collaborators the handlers read (current in-progress bar, indicator
  snapshot, wall clock, gap classification).
* Python `None` flows into `Option`; code paths that would raise a Python
  exception (`TypeError` on `float * None`, attribute arithmetic on `None`)
  are modelled with `Except String`.
-/

namespace Brisk

/-- `StrategyState` enum from `intraday_strategy_base.py`. -/
inductive StrategyState
  | IDLE
  | WAITING_ENTRY
  | HOLDING
  | WAITING_EXIT
  | WAITING_TIMEOUT_EXIT
deriving DecidableEq

/-- `vnpy.trader.constant.Direction` (the two values used by this strategy). -/
inductive Direction
  | LONG
  | SHORT
deriving DecidableEq

/-- `vnpy.trader.constant.Offset` (the two values used by this strategy). -/
inductive Offset
  | OPEN
  | CLOSE
deriving DecidableEq

/-- `vnpy.trader.constant.OrderType` (the two values used by this strategy). -/
inductive OrderType
  | LIMIT
  | MARKET
deriving DecidableEq

/-- `vnpy.trader.constant.Status` values handled by the order callbacks. -/
inductive Status
  | SUBMITTING
  | NOTTRADED
  | PARTTRADED
  | ALLTRADED
  | CANCELLED
  | REJECTED
deriving DecidableEq

/-- Gap classification strings `'up' / 'down' / 'none'` stored in
`self.gap_direction` (`nodir` stands for the string `'none'`). -/
inductive GapDir
  | up
  | down
  | nodir
deriving DecidableEq

/-- Result strings of `_get_price_movement_direction`. -/
inductive MovementDir
  | favorable
  | unfavorable
  | unknown
deriving DecidableEq

/-- A completed or in-progress one-minute bar (`vnpy BarData`), restricted to
the fields the strategy reads. -/
structure Bar where
  symbol : String
  datetime : ℤ
  open_price : ℚ
  high_price : ℚ
  low_price : ℚ
  close_price : ℚ
  volume : ℚ
deriving DecidableEq

/-- A market-data tick (`vnpy TickData`), restricted to the fields read. -/
structure Tick where
  symbol : String
  datetime : ℤ
  last_price : ℚ
deriving DecidableEq

/-- The indicator snapshot returned by
`TechnicalIndicatorManager.get_indicators`. -/
structure Indicators where
  vwap : ℚ
  atr_14 : ℚ
  volume_ma5 : ℚ
  above_vwap_count : ℕ
  below_vwap_count : ℕ
deriving DecidableEq

/-- An order-update callback payload (`vnpy OrderData`), restricted to the
fields the handlers read.  `otype` is the Python attribute `order.type`. -/
structure OrderData where
  orderid : String
  status : Status
  otype : OrderType
  price : ℚ
  traded : ℚ
  datetime : Option ℤ
deriving DecidableEq

/-- The order request built by `_execute_order`.  The `exchange` and the
`reference` logging string of the Python `OrderRequest` carry no strategy
logic and are omitted. -/
structure OrderRequest where
  symbol : String
  direction : Direction
  otype : OrderType
  volume : ℤ
  price : ℚ
  offset : Offset
deriving DecidableEq

/-- One call made to the external gateway. -/
inductive Effect
  | sendOrder (req : OrderRequest)
  | cancelOrder (orderid : String)
deriving DecidableEq

/-- The `StockContext` dataclass of `intraday_strategy_base.py`.
`already_traded` and the `entry_canceled_by_vol_ma5` flag are set dynamically
on the Python object by the handlers; `already_traded` is included here
because the embedded handlers read and write it. -/
structure StockContext where
  symbol : String
  state : StrategyState := .IDLE
  trade_count : ℕ := 0
  timeout_trade_count : ℕ := 0
  entry_order_id : String := ""
  exit_order_id : String := ""
  entry_price : ℚ := 0
  entry_time : Option ℤ := none
  exit_start_time : Option ℤ := none
  timeout_exit_start_time : Option ℤ := none
  max_exit_wait_time : ℤ := 300
  position_size : ℤ := 100
  exit_price : ℚ := 0
  entry_trigger_price : ℚ := 0
  entry_trigger_order_price : ℚ := 0
  trading_banned : Bool := false
  already_traded : ℚ := 0
deriving DecidableEq

/-- `StockContext(symbol=symbol)`: a freshly constructed context with the
dataclass defaults. -/
def StockContext.init (sym : String) : StockContext := { symbol := sym }

/-- The strategy parameters of `VWAPFailureStrategy.__init__` that the
embedded handlers read (defaults as in the source). -/
structure Params where
  failure_threshold_gap_up : ℕ := 3
  failure_threshold_gap_down : ℕ := 2
  entry_factor_gap_up : ℚ := 3/2
  entry_factor_gap_down : ℚ := 6/5
  max_daily_trades_gap_up : ℕ := 3
  max_daily_trades_gap_down : ℕ := 2
  latest_entry_time : ℤ := 14 * 3600 + 30 * 60
  exit_factor_gap_up : ℚ := 1
  exit_factor_gap_down : ℚ := 4/5
  max_exit_wait_time_gap_up : ℤ := 30
  max_exit_wait_time_gap_down : ℤ := 20
  timeout_exit_max_period : ℤ := 5
  exit_vol_ma5_ratio_threshold : ℚ := 5
  force_exit_atr_factor : ℚ := 3
  delayed_entry_atr_multiplier : ℚ := 2
  enable_delayed_entry : Bool := false

/-- External collaborators as seen from one instrument's handlers:
the gateway's synchronous answers, the bar generator's in-progress bar and
last tick price, the indicator engine snapshot, the wall clock
(`datetime.now()`), the gap classification for this symbol, and the
tick-price rounding helper.  `next_tick_price` lives in the repository's
`common.trading_common` module, which is not among the provided sources;
it is kept as an abstract collaborator function here. -/
structure Env where
  send_order : OrderRequest → Option String
  cancel_ok : String → Bool
  current_bar : Option Bar
  last_tick_price : Option ℚ
  get_indicators : Option Indicators
  now : ℤ
  gap_dir : GapDir
  next_tick_price : String → ℚ → Bool → ℚ

/-- `_is_gap_up`: `self.gap_direction.get(symbol, 'none') == 'up'`. -/
def is_gap_up (env : Env) : Bool := env.gap_dir = .up

/-- Seconds-of-day of a timestamp, modelling `datetime.time()` comparisons. -/
def timeOfDay (t : ℤ) : ℤ := t % 86400

/-- Modelled from the spec: `TypicalTimes.MORNING_CLOSING` of the missing
`common.trading_common` module — the fixed end of the morning session's
closing window ("a fixed closing window"); modelled as 11:30:00. -/
def MORNING_CLOSING : ℤ := 11 * 3600 + 30 * 60

/-- Modelled from the spec: `TypicalTimes.MORNING_CLOSING_START` of the
missing `common.trading_common` module — the start of the fixed closing
window; modelled as 11:25:00. -/
def MORNING_CLOSING_START : ℤ := 11 * 3600 + 25 * 60

/-- Modelled from the spec: `TypicalTimes.ONE_MIN_BEFORE_MORNING_CLOSING_START`
of the missing `common.trading_common` module — the fixed pre-close cutoff,
one minute before the closing window starts. -/
def ONE_MIN_BEFORE_MORNING_CLOSING_START : ℤ := MORNING_CLOSING_START - 60

/-- `_is_within_morning_closing_time` of `vwap_failure_strategy.py`. -/
def is_within_morning_closing_time (t : ℤ) : Bool :=
  MORNING_CLOSING_START ≤ timeOfDay t ∧ timeOfDay t ≤ MORNING_CLOSING

/-- `_is_within_one_min_before_morning_closing_start` of
`vwap_failure_strategy.py`. -/
def is_within_one_min_before_morning_closing_start (t : ℤ) : Bool :=
  ONE_MIN_BEFORE_MORNING_CLOSING_START ≤ timeOfDay t ∧ timeOfDay t < MORNING_CLOSING

/-- `_is_within_trading_time`: bar time-of-day at or before
`latest_entry_time`. -/
def is_within_trading_time (p : Params) (t : ℤ) : Bool :=
  timeOfDay t ≤ p.latest_entry_time

/-- `_execute_order` of `intraday_strategy_base.py`: build the
`OrderRequest` (volume `context.position_size`) and submit it; the returned
`Option String` is the gateway's synchronous answer (`None` = rejected at
submission). -/
def execute_order (env : Env) (ctx : StockContext) (price : ℚ)
    (dir : Direction) (off : Offset) (otype : OrderType) :
    Option String × List Effect :=
  let req : OrderRequest :=
    { symbol := ctx.symbol, direction := dir, otype := otype,
      volume := ctx.position_size, price := price, offset := off }
  (env.send_order req, [Effect.sendOrder req])

/-- `_execute_trade` of `intraday_strategy_base.py`: submit the order and,
on acceptance, record the order id, quoted price and timestamp on the side
given by `off`, reset the deferred-entry trigger fields (entry side), and
move the state to `WAITING_ENTRY` / `WAITING_EXIT`. -/
def execute_trade (env : Env) (ctx : StockContext) (price : ℚ)
    (dir : Direction) (off : Offset) (otype : OrderType) :
    StockContext × List Effect × Option String :=
  let (oid?, eff) := execute_order env ctx price dir off otype
  match oid? with
  | none => (ctx, eff, none)
  | some oid =>
    if off = .OPEN then
      ({ ctx with entry_order_id := oid, entry_price := price,
                  entry_time := some env.now,
                  entry_trigger_price := 0, entry_trigger_order_price := 0,
                  state := .WAITING_ENTRY }, eff, some oid)
    else
      ({ ctx with exit_order_id := oid, exit_price := price,
                  exit_start_time := some env.now,
                  state := .WAITING_EXIT }, eff, some oid)

/-- `_execute_entry` of `intraday_strategy_base.py`: place the entry order;
on synchronous rejection fall back to `IDLE` and clear `entry_order_id`. -/
def execute_entry (env : Env) (ctx : StockContext) (price : ℚ)
    (dir : Direction) : StockContext × List Effect :=
  let (ctx1, eff, oid?) := execute_trade env ctx price dir .OPEN .LIMIT
  match oid? with
  | some _ => (ctx1, eff)
  | none => ({ ctx1 with state := .IDLE, entry_order_id := "" }, eff)

/-- `_execute_exit` of `intraday_strategy_base.py`. -/
def execute_exit (env : Env) (ctx : StockContext) (price : ℚ)
    (dir : Direction) (otype : OrderType) :
    StockContext × List Effect × Option String :=
  execute_trade env ctx price dir .CLOSE otype

/-- `_cancel_order_safely` of `intraday_strategy_base.py`: no gateway call
for an empty id (returns success); otherwise one `cancelOrder` call whose
success is the gateway's answer (`False` models the `except` branch). -/
def cancel_order_safely (env : Env) (orderid : String) :
    List Effect × Bool :=
  if orderid = "" then ([], true)
  else ([Effect.cancelOrder orderid], env.cancel_ok orderid)

/-- `_get_failure_threshold` of `vwap_failure_strategy.py`. -/
def get_failure_threshold (env : Env) (p : Params) : ℕ :=
  if is_gap_up env then p.failure_threshold_gap_up else p.failure_threshold_gap_down

/-- `_get_entry_factor` of `vwap_failure_strategy.py`. -/
def get_entry_factor (env : Env) (p : Params) : ℚ :=
  if is_gap_up env then p.entry_factor_gap_up else p.entry_factor_gap_down

/-- `_get_exit_factor` of `vwap_failure_strategy.py`. -/
def get_exit_factor (env : Env) (p : Params) : ℚ :=
  if is_gap_up env then p.exit_factor_gap_up else p.exit_factor_gap_down

/-- `_get_daily_trades_for_gap` of `vwap_failure_strategy.py`. -/
def get_daily_trades_for_gap (env : Env) (p : Params) : ℕ :=
  if is_gap_up env then p.max_daily_trades_gap_up else p.max_daily_trades_gap_down

/-- `_get_exit_wait_time` of `vwap_failure_strategy.py` (minutes). -/
def get_exit_wait_time (env : Env) (p : Params) : ℤ :=
  if is_gap_up env then p.max_exit_wait_time_gap_up else p.max_exit_wait_time_gap_down

/-- `_calculate_entry_price` of `vwap_failure_strategy.py`. -/
def calculate_entry_price (env : Env) (p : Params) (ctx : StockContext)
    (inds : Indicators) : ℚ :=
  if is_gap_up env then
    env.next_tick_price ctx.symbol (inds.vwap + inds.atr_14 * get_entry_factor env p) false
  else
    env.next_tick_price ctx.symbol (inds.vwap - inds.atr_14 * get_entry_factor env p) true

/-- `_calculate_exit_price` of `vwap_failure_strategy.py` (the `indicators`
argument is the Python dict, `none` standing for a missing/empty dict). -/
def calculate_exit_price (env : Env) (p : Params) (ctx : StockContext)
    (inds? : Option Indicators) : ℚ :=
  match inds? with
  | none =>
    if is_gap_up env then
      env.next_tick_price ctx.symbol (ctx.entry_price - get_exit_factor env p * (1/100)) true
    else
      env.next_tick_price ctx.symbol (ctx.entry_price + get_exit_factor env p * (1/100)) false
  | some inds =>
    if is_gap_up env then
      env.next_tick_price ctx.symbol (inds.vwap - inds.atr_14 * get_exit_factor env p) true
    else
      env.next_tick_price ctx.symbol (inds.vwap + inds.atr_14 * get_exit_factor env p) false

/-- `_generate_exit_order_from_order` of `vwap_failure_strategy.py`: record
the entry fill data from the order, compute the exit price from the current
indicator snapshot, and place the limit exit order in the direction opposite
to the gap bias. -/
def generate_exit_order_from_order (env : Env) (p : Params)
    (ctx : StockContext) (entry_order : OrderData) : StockContext × List Effect :=
  let ctx1 := { ctx with entry_price := entry_order.price,
                         entry_time := entry_order.datetime }
  let xp := calculate_exit_price env p ctx1 env.get_indicators
  let dir := if is_gap_up env then Direction.LONG else Direction.SHORT
  let (ctx2, eff, _) := execute_exit env ctx1 xp dir .LIMIT
  (ctx2, eff)

/-- `_handle_entry_order_update` of `vwap_failure_strategy.py`. -/
def handle_entry_order_update (env : Env) (p : Params) (ctx : StockContext)
    (o : OrderData) : StockContext × List Effect :=
  if o.status = .REJECTED then
    ({ ctx with state := .IDLE, entry_order_id := "" }, [])
  else if o.status = .ALLTRADED then
    let ctx1 := { ctx with state := .HOLDING, already_traded := 0 }
    generate_exit_order_from_order env p ctx1 o
  else if o.status = .PARTTRADED then
    ({ ctx with already_traded := o.traded }, [])
  else (ctx, [])

/-- `_handle_exit_order_update` of `vwap_failure_strategy.py`.  On a full
fill the trade counter is incremented; the timeout counter is incremented
when the filled order was a market order or the context sat in
`WAITING_TIMEOUT_EXIT`. -/
def handle_exit_order_update (ctx : StockContext) (o : OrderData) :
    StockContext × List Effect :=
  if o.status = .REJECTED then
    ({ ctx with state := .HOLDING, exit_order_id := "" }, [])
  else if o.status = .ALLTRADED then
    let should_increment_timeout_count :=
      o.otype = OrderType.MARKET ∨ ctx.state = StrategyState.WAITING_TIMEOUT_EXIT
    ({ ctx with
        trade_count := ctx.trade_count + 1,
        timeout_trade_count :=
          if should_increment_timeout_count then ctx.timeout_trade_count + 1
          else ctx.timeout_trade_count,
        already_traded := 0,
        state := .IDLE,
        exit_order_id := "" }, [])
  else if o.status = .CANCELLED then (ctx, [])
  else if o.status = .PARTTRADED then
    ({ ctx with already_traded := o.traded }, [])
  else (ctx, [])

/-- `on_order` of `vwap_failure_strategy.py`, specialised to a single
instrument: `get_context_by_order_id` finds this context when the callback's
order id matches one of its two order-id fields, and the matching side's
handler runs (entry side checked first, as in the source). -/
def on_order (env : Env) (p : Params) (ctx : StockContext) (o : OrderData) :
    StockContext × List Effect :=
  if o.orderid = ctx.entry_order_id then handle_entry_order_update env p ctx o
  else if o.orderid = ctx.exit_order_id then handle_exit_order_update ctx o
  else (ctx, [])

/-- `_force_market_exit` of `vwap_failure_strategy.py`: cancel the current
exit order if any (the cancel's result is ignored), then place a market
order in the closing direction. -/
def force_market_exit (env : Env) (ctx : StockContext) :
    StockContext × List Effect :=
  let (ceff, _) :=
    if ctx.exit_order_id ≠ "" then cancel_order_safely env ctx.exit_order_id
    else ([], true)
  let dir := if is_gap_up env then Direction.LONG else Direction.SHORT
  let (ctx1, eff, _) := execute_exit env ctx 0 dir .MARKET
  (ctx1, ceff ++ eff)

/-- `_start_timeout_exit` of `vwap_failure_strategy.py`: re-quote the exit
as a limit order at the in-progress bar's close (falling back to the bar
generator's last tick price, and to a market order when neither exists),
then move to `WAITING_TIMEOUT_EXIT` and stamp `timeout_exit_start_time`.
`env.last_tick_price` models `bar_gen.get_last_tick_price()` (with `none`
also covering an absent bar generator). -/
def start_timeout_exit (env : Env) (ctx : StockContext) :
    StockContext × List Effect :=
  let limit_price? :=
    match env.current_bar with
    | some b => some b.close_price
    | none => env.last_tick_price
  match limit_price? with
  | none => force_market_exit env ctx
  | some limit_price =>
    let dir := if is_gap_up env then Direction.LONG else Direction.SHORT
    let (ctx1, eff, _) := execute_exit env ctx limit_price dir .LIMIT
    ({ ctx1 with state := .WAITING_TIMEOUT_EXIT,
                 timeout_exit_start_time := some env.now }, eff)

/-- `_check_exit_timeout` of `vwap_failure_strategy.py`.  The boolean result
is the Python return value; `current_time` is `bar.datetime + 1 minute` and
the first-stage wait is `get_exit_wait_time − 1` minutes, exactly as in the
source.  The `.error` case models the Python `TypeError` of subtracting
`None` (`timeout_exit_start_time` unset in `WAITING_TIMEOUT_EXIT`). -/
def check_exit_timeout (env : Env) (p : Params) (ctx : StockContext)
    (bar : Bar) : Except String (StockContext × List Effect × Bool) :=
  match ctx.exit_start_time with
  | none => .ok (ctx, [], false)
  | some exit_start =>
    if ctx.exit_order_id = "" then .ok (ctx, [], false)
    else
      let current_time := bar.datetime + 60
      let max_wait_time := 60 * (get_exit_wait_time env p - 1)
      if ctx.state = StrategyState.WAITING_EXIT ∧
          (current_time - exit_start ≥ max_wait_time ∨
           is_within_one_min_before_morning_closing_start (current_time - 60)) then
        let (ceff, ok) := cancel_order_safely env ctx.exit_order_id
        if ok then
          let (ctx1, eff) := start_timeout_exit env ctx
          .ok (ctx1, ceff ++ eff, true)
        else .ok (ctx, ceff, false)
      else if ctx.state = StrategyState.WAITING_TIMEOUT_EXIT then
        match ctx.timeout_exit_start_time with
        | none => .error "TypeError"
        | some timeout_start =>
          if current_time - timeout_start ≥ 60 * p.timeout_exit_max_period ∨
              is_within_morning_closing_time (current_time - 60) then
            let (ctx1, eff) := force_market_exit env ctx
            .ok (ctx1, eff, true)
          else .ok (ctx, [], true)
      else .ok (ctx, [], false)

/-- `_get_price_movement_direction` of `intraday_strategy_base.py`
(`self.gap_direction` always exists on the strategy object, so the
`hasattr` guard is vacuous). -/
def get_price_movement_direction (env : Env) (b : Bar) : MovementDir :=
  match env.gap_dir with
  | .up => if b.close_price < b.open_price then .favorable else .unfavorable
  | .down => if b.close_price > b.open_price then .favorable else .unfavorable
  | .nodir => .unknown

/-- `_ban_symbol_trading` of `intraday_strategy_base.py`: drop the symbol
from `eligible_stocks` and set the context's ban flag. -/
def ban_symbol_trading (ctx : StockContext) (eligible : List String) :
    StockContext × List String :=
  ({ ctx with trading_banned := true }, eligible.filter (· ≠ ctx.symbol))

/-- `_force_exit_due_to_risk_control` of `intraday_strategy_base.py`:
force a market exit, then ban the symbol. -/
def force_exit_due_to_risk_control (env : Env) (ctx : StockContext)
    (eligible : List String) : StockContext × List String × List Effect :=
  let (ctx1, eff) := force_market_exit env ctx
  let (ctx2, eligible1) := ban_symbol_trading ctx1 eligible
  (ctx2, eligible1, eff)

/-- `_check_exit_risk_control` of `intraday_strategy_base.py`: on a tick
while `WAITING_EXIT`, with a current bar and a non-empty indicator snapshot,
positive `volume_ma5` and positive `atr_14`, force a market exit and ban the
instrument when the volume ratio and the price change both reach their
thresholds and the move is unfavorable to the held position. -/
def check_exit_risk_control (env : Env) (p : Params) (ctx : StockContext)
    (eligible : List String) : StockContext × List String × List Effect :=
  if ctx.state ≠ StrategyState.WAITING_EXIT then (ctx, eligible, [])
  else
    match env.current_bar with
    | none => (ctx, eligible, [])
    | some current_bar =>
      match env.get_indicators with
      | none => (ctx, eligible, [])
      | some inds =>
        if inds.volume_ma5 ≤ 0 then (ctx, eligible, [])
        else
          let vol_ratio := current_bar.volume / inds.volume_ma5
          let price_change := |current_bar.close_price - current_bar.open_price|
          if inds.atr_14 ≤ 0 then (ctx, eligible, [])
          else
            let atr_threshold := inds.atr_14 * p.force_exit_atr_factor
            if vol_ratio ≥ p.exit_vol_ma5_ratio_threshold ∧
                price_change ≥ atr_threshold then
              if get_price_movement_direction env current_bar = .unfavorable then
                force_exit_due_to_risk_control env ctx eligible
              else (ctx, eligible, [])
            else (ctx, eligible, [])

/-- The eligibility gate at the top of `VWAPFailureStrategy.on_1min_bar`:
candles of instruments outside `eligible_stocks` are not processed, so no
entry signal is evaluated for them. -/
def on_1min_bar_processes (eligible : List String) (sym : String) : Bool :=
  sym ∈ eligible

/-- `_is_price_within_atr_range` of `intraday_strategy_base.py`, with the
Python `atr_multiplier` argument as an `Option` (`none` = `None`).  With a
positive `atr`, multiplying `atr` by `None` raises a `TypeError`, modelled
by the `.error` case. -/
def is_price_within_atr_range (current_price target_price atr : ℚ)
    (atr_multiplier : Option ℚ) : Except String Bool :=
  if atr ≤ 0 then .ok true
  else
    match atr_multiplier with
    | none => .error "TypeError"
    | some m => .ok (|current_price - target_price| ≤ atr * m)

/-- `_set_trigger_prices` of `intraday_strategy_base.py` (the trigger offset
is the literal `2 * atr` of the source, not the configurable multiplier). -/
def set_trigger_prices (env : Env) (ctx : StockContext) (inds : Indicators)
    (target_price : ℚ) : StockContext :=
  match env.gap_dir with
  | .up =>
    { ctx with entry_trigger_price := target_price - 2 * inds.atr_14,
               entry_trigger_order_price := target_price }
  | .down =>
    { ctx with entry_trigger_price := target_price + 2 * inds.atr_14,
               entry_trigger_order_price := target_price }
  | .nodir => ctx

/-- `_execute_triggered_entry` of `intraday_strategy_base.py` (the pseudo-bar
built from the tick carries no strategy logic beyond logging). -/
def execute_triggered_entry (env : Env) (ctx : StockContext) (price : ℚ)
    (dir : Direction) : StockContext × List Effect :=
  execute_entry env ctx price dir

/-- `_check_and_execute_trigger` of `intraday_strategy_base.py`: per-tick
deferred-entry check.  Fires only with both trigger fields positive, state
`IDLE`, the symbol in `eligible_stocks`, and the tick price on the trigger
side for the instrument's gap direction. -/
def check_and_execute_trigger (env : Env) (ctx : StockContext)
    (eligible : List String) (tick : Tick) :
    StockContext × List Effect × Bool :=
  if ctx.entry_trigger_price ≤ 0 ∨ ctx.entry_trigger_order_price ≤ 0 then
    (ctx, [], false)
  else if ctx.state ≠ StrategyState.IDLE then (ctx, [], false)
  else if ¬ tick.symbol ∈ eligible then (ctx, [], false)
  else
    match env.gap_dir with
    | .up =>
      if tick.last_price ≥ ctx.entry_trigger_price then
        let (ctx1, eff) :=
          execute_triggered_entry env ctx ctx.entry_trigger_order_price .SHORT
        (ctx1, eff, true)
      else (ctx, [], false)
    | .down =>
      if tick.last_price ≤ ctx.entry_trigger_price then
        let (ctx1, eff) :=
          execute_triggered_entry env ctx ctx.entry_trigger_order_price .LONG
        (ctx1, eff, true)
      else (ctx, [], false)
    | .nodir => (ctx, [], false)

/-- `_generate_trading_signal` of `vwap_failure_strategy.py`.  The deferred
branch calls `_is_price_within_atr_range(..., atr_multiplier=None)`, so the
`TypeError` of that helper propagates (`.error`). -/
def generate_trading_signal (env : Env) (p : Params) (ctx : StockContext)
    (bar : Bar) (inds : Indicators) :
    Except String (StockContext × List Effect) :=
  if ¬ is_within_trading_time p bar.datetime then .ok (ctx, [])
  else if ctx.trade_count ≥ get_daily_trades_for_gap env p then .ok (ctx, [])
  else if ctx.state ≠ StrategyState.IDLE then .ok (ctx, [])
  else if env.gap_dir = .nodir then .ok (ctx, [])
  else if ctx.timeout_trade_count > 0 ∧
      ¬ (bar.low_price ≤ calculate_entry_price env p ctx inds ∧
         calculate_entry_price env p ctx inds ≤ bar.high_price) then
    .ok (ctx, [])
  else
    match env.gap_dir with
    | .up =>
      if inds.below_vwap_count ≥ get_failure_threshold env p then
        let target_price := calculate_entry_price env p ctx inds
        if p.enable_delayed_entry then
          match is_price_within_atr_range bar.close_price target_price
              inds.atr_14 none with
          | .error e => .error e
          | .ok true => .ok (execute_entry env ctx target_price .SHORT)
          | .ok false => .ok (set_trigger_prices env ctx inds target_price, [])
        else .ok (execute_entry env ctx target_price .SHORT)
      else .ok (ctx, [])
    | .down =>
      if inds.above_vwap_count ≥ get_failure_threshold env p then
        let target_price := calculate_entry_price env p ctx inds
        if p.enable_delayed_entry then
          match is_price_within_atr_range bar.close_price target_price
              inds.atr_14 none with
          | .error e => .error e
          | .ok true => .ok (execute_entry env ctx target_price .LONG)
          | .ok false => .ok (set_trigger_prices env ctx inds target_price, [])
        else .ok (execute_entry env ctx target_price .LONG)
      else .ok (ctx, [])
    | .nodir => .ok (ctx, [])

/-- Python `round` (round half to even), on exact rationals. -/
def pyRound (q : ℚ) : ℤ :=
  let f := ⌊q⌋
  let frac := q - f
  if frac < 1/2 then f
  else if frac > 1/2 then f + 1
  else if f % 2 = 0 then f else f + 1

/-- `calculate_position_size` of `intraday_strategy_base.py`, with the
previous close supplied by the stock-master table (`price`) and the capital
allocation `single_stock_max_position`. -/
def calculate_position_size (single_stock_max_position : ℚ) (price : ℚ) : ℤ :=
  if price ≤ 0 then 100
  else max (pyRound (single_stock_max_position / price / 100) * 100) 100

/-- `get_stock_prev_close` of `intraday_strategy_base.py`:
`basePrice10 / 10`, or `0` when the table entry is missing or non-positive. -/
def get_stock_prev_close (base_price10 : ℚ) : ℚ :=
  if base_price10 > 0 then base_price10 / 10 else 0

/-- `get_context` of `intraday_strategy_base.py`, over the `contexts` map
(modelled as an association list): an existing context is returned as is; a
missing one is created with the dataclass defaults and its `position_size`
computed once from the previous close. -/
def get_context (contexts : List (String × StockContext))
    (single_stock_max_position prev_close : ℚ) (sym : String) :
    StockContext × List (String × StockContext) :=
  match contexts.lookup sym with
  | some ctx => (ctx, contexts)
  | none =>
    let ctx := { StockContext.init sym with
      position_size := calculate_position_size single_stock_max_position prev_close }
    (ctx, contexts ++ [(sym, ctx)])

/-- The per-context body of `reset_all_contexts` in
`intraday_strategy_base.py` (exactly the fields assigned there). -/
def reset_context (c : StockContext) : StockContext :=
  { c with state := .IDLE, trade_count := 0, timeout_trade_count := 0,
           entry_order_id := "", exit_order_id := "",
           entry_price := 0, entry_time := none,
           exit_start_time := none, timeout_exit_start_time := none,
           entry_trigger_price := 0, entry_trigger_order_price := 0,
           trading_banned := false }

/-- `reset_all_contexts` of `intraday_strategy_base.py`: every stored
context is reset in place; none is removed. -/
def reset_all_contexts (contexts : List (String × StockContext)) :
    List (String × StockContext) :=
  contexts.map (fun sc => (sc.1, reset_context sc.2))

/-! ### Helper lemmas: fields preserved by the handlers -/

/-- `_execute_trade` never touches `position_size`, the two trade counters
or the symbol. -/
theorem execute_trade_preserves (env : Env) (ctx : StockContext) (price : ℚ)
    (dir : Direction) (off : Offset) (otype : OrderType) :
    (execute_trade env ctx price dir off otype).1.position_size = ctx.position_size ∧
    (execute_trade env ctx price dir off otype).1.trade_count = ctx.trade_count ∧
    (execute_trade env ctx price dir off otype).1.timeout_trade_count = ctx.timeout_trade_count ∧
    (execute_trade env ctx price dir off otype).1.symbol = ctx.symbol := by
  simp only [execute_trade, execute_order]
  cases h : env.send_order
      { symbol := ctx.symbol, direction := dir, otype := otype,
        volume := ctx.position_size, price := price, offset := off } with
  | none => simp
  | some oid =>
    by_cases ho : off = .OPEN <;> simp [ho]

/-- `_execute_entry` never touches `position_size`, the counters or the
symbol. -/
theorem execute_entry_preserves (env : Env) (ctx : StockContext) (price : ℚ)
    (dir : Direction) :
    (execute_entry env ctx price dir).1.position_size = ctx.position_size ∧
    (execute_entry env ctx price dir).1.trade_count = ctx.trade_count ∧
    (execute_entry env ctx price dir).1.timeout_trade_count = ctx.timeout_trade_count ∧
    (execute_entry env ctx price dir).1.symbol = ctx.symbol := by
  have h := execute_trade_preserves env ctx price dir .OPEN .LIMIT
  simp only [execute_entry]
  rcases hres : execute_trade env ctx price dir .OPEN .LIMIT with ⟨c1, eff, oid?⟩
  rw [hres] at h
  cases oid? with
  | none => simpa using h
  | some oid => simpa using h

/-- `_force_market_exit` never touches `position_size`, the counters or the
symbol. -/
theorem force_market_exit_preserves (env : Env) (ctx : StockContext) :
    (force_market_exit env ctx).1.position_size = ctx.position_size ∧
    (force_market_exit env ctx).1.trade_count = ctx.trade_count ∧
    (force_market_exit env ctx).1.timeout_trade_count = ctx.timeout_trade_count ∧
    (force_market_exit env ctx).1.symbol = ctx.symbol := by
  have h := execute_trade_preserves env ctx 0
    (if is_gap_up env then Direction.LONG else Direction.SHORT) .CLOSE .MARKET
  simp only [force_market_exit, execute_exit]
  rcases hres : execute_trade env ctx 0
      (if is_gap_up env then Direction.LONG else Direction.SHORT) .CLOSE .MARKET
    with ⟨c1, eff, oid?⟩
  rw [hres] at h
  simpa using h

/-- `_start_timeout_exit` never touches `position_size`, the counters or the
symbol. -/
theorem start_timeout_exit_preserves (env : Env) (ctx : StockContext) :
    (start_timeout_exit env ctx).1.position_size = ctx.position_size ∧
    (start_timeout_exit env ctx).1.trade_count = ctx.trade_count ∧
    (start_timeout_exit env ctx).1.timeout_trade_count = ctx.timeout_trade_count ∧
    (start_timeout_exit env ctx).1.symbol = ctx.symbol := by
  simp only [start_timeout_exit]
  cases hb : env.current_bar with
  | none =>
    cases hl : env.last_tick_price with
    | none => simpa using force_market_exit_preserves env ctx
    | some lp =>
      have h := execute_trade_preserves env ctx lp
        (if is_gap_up env then Direction.LONG else Direction.SHORT) .CLOSE .LIMIT
      simp only [execute_exit]
      rcases hres : execute_trade env ctx lp
          (if is_gap_up env then Direction.LONG else Direction.SHORT) .CLOSE .LIMIT
        with ⟨c1, eff, oid?⟩
      rw [hres] at h
      simpa using h
  | some b =>
    have h := execute_trade_preserves env ctx b.close_price
      (if is_gap_up env then Direction.LONG else Direction.SHORT) .CLOSE .LIMIT
    simp only [execute_exit]
    rcases hres : execute_trade env ctx b.close_price
        (if is_gap_up env then Direction.LONG else Direction.SHORT) .CLOSE .LIMIT
      with ⟨c1, eff, oid?⟩
    rw [hres] at h
    simpa using h

/-- `_generate_exit_order_from_order` never touches `position_size`, the
counters or the symbol. -/
theorem generate_exit_order_preserves (env : Env) (p : Params)
    (ctx : StockContext) (o : OrderData) :
    (generate_exit_order_from_order env p ctx o).1.position_size = ctx.position_size ∧
    (generate_exit_order_from_order env p ctx o).1.trade_count = ctx.trade_count ∧
    (generate_exit_order_from_order env p ctx o).1.timeout_trade_count = ctx.timeout_trade_count ∧
    (generate_exit_order_from_order env p ctx o).1.symbol = ctx.symbol := by
  simp only [generate_exit_order_from_order, execute_exit]
  set ctx1 : StockContext :=
    { ctx with entry_price := o.price, entry_time := o.datetime } with hctx1
  have h := execute_trade_preserves env ctx1
    (calculate_exit_price env p ctx1 env.get_indicators)
    (if is_gap_up env then Direction.LONG else Direction.SHORT) .CLOSE .LIMIT
  rcases hres : execute_trade env ctx1
      (calculate_exit_price env p ctx1 env.get_indicators)
      (if is_gap_up env then Direction.LONG else Direction.SHORT) .CLOSE .LIMIT
    with ⟨c2, eff, oid?⟩
  rw [hres] at h
  simpa using h

/-- `_handle_entry_order_update` never touches `position_size`, the
counters or the symbol. -/
theorem handle_entry_order_update_preserves (env : Env) (p : Params)
    (ctx : StockContext) (o : OrderData) :
    (handle_entry_order_update env p ctx o).1.position_size = ctx.position_size ∧
    (handle_entry_order_update env p ctx o).1.trade_count = ctx.trade_count ∧
    (handle_entry_order_update env p ctx o).1.timeout_trade_count = ctx.timeout_trade_count ∧
    (handle_entry_order_update env p ctx o).1.symbol = ctx.symbol := by
  simp only [handle_entry_order_update]
  by_cases h1 : o.status = .REJECTED
  · simp [h1]
  · by_cases h2 : o.status = .ALLTRADED
    · simp only [h1, h2, if_false, if_true]
      exact generate_exit_order_preserves env p
        { ctx with state := .HOLDING, already_traded := 0 } o
    · by_cases h3 : o.status = .PARTTRADED <;> simp [h1, h2, h3]

/-- `_handle_exit_order_update` never touches `position_size` or the
symbol. -/
theorem handle_exit_order_update_preserves (ctx : StockContext)
    (o : OrderData) :
    (handle_exit_order_update ctx o).1.position_size = ctx.position_size ∧
    (handle_exit_order_update ctx o).1.symbol = ctx.symbol := by
  simp only [handle_exit_order_update]
  by_cases h1 : o.status = .REJECTED
  · simp [h1]
  · by_cases h2 : o.status = .ALLTRADED
    · simp [h1, h2]
    · by_cases h3 : o.status = .CANCELLED
      · simp [h1, h2, h3]
      · by_cases h4 : o.status = .PARTTRADED <;> simp [h1, h2, h3, h4]

/-- `on_order` never touches `position_size` or the symbol. -/
theorem on_order_preserves (env : Env) (p : Params) (ctx : StockContext)
    (o : OrderData) :
    (on_order env p ctx o).1.position_size = ctx.position_size ∧
    (on_order env p ctx o).1.symbol = ctx.symbol := by
  simp only [on_order]
  by_cases h1 : o.orderid = ctx.entry_order_id
  · simp only [h1, if_true]
    have h := handle_entry_order_update_preserves env p ctx o
    exact ⟨h.1, h.2.2.2⟩
  · rw [if_neg h1]
    by_cases h2 : o.orderid = ctx.exit_order_id
    · rw [if_pos h2]
      exact handle_exit_order_update_preserves ctx o
    · rw [if_neg h2]
      exact ⟨rfl, rfl⟩

/-- `_check_exit_timeout` never touches `position_size`, `trade_count` or
the symbol (in every non-crashing run). -/
theorem check_exit_timeout_preserves (env : Env) (p : Params)
    (ctx : StockContext) (bar : Bar)
    (r : StockContext × List Effect × Bool)
    (h : check_exit_timeout env p ctx bar = .ok r) :
    r.1.position_size = ctx.position_size ∧
    r.1.trade_count = ctx.trade_count ∧
    r.1.symbol = ctx.symbol := by
  simp only [check_exit_timeout] at h
  split at h
  · injection h with h2; subst h2; exact ⟨rfl, rfl, rfl⟩
  · split at h
    · injection h with h2; subst h2; exact ⟨rfl, rfl, rfl⟩
    · split at h
      · split at h
        · injection h with h2
          subst h2
          have hp := start_timeout_exit_preserves env ctx
          exact ⟨hp.1, hp.2.1, hp.2.2.2⟩
        · injection h with h2; subst h2; exact ⟨rfl, rfl, rfl⟩
      · split at h
        · split at h
          · exact Except.noConfusion h
          · split at h
            · injection h with h2
              subst h2
              have hp := force_market_exit_preserves env ctx
              exact ⟨hp.1, hp.2.1, hp.2.2.2⟩
            · injection h with h2; subst h2; exact ⟨rfl, rfl, rfl⟩
        · injection h with h2; subst h2; exact ⟨rfl, rfl, rfl⟩

/-- `_check_exit_risk_control` never touches `position_size`, `trade_count`
or the symbol. -/
theorem check_exit_risk_control_preserves (env : Env) (p : Params)
    (ctx : StockContext) (eligible : List String) :
    (check_exit_risk_control env p ctx eligible).1.position_size = ctx.position_size ∧
    (check_exit_risk_control env p ctx eligible).1.trade_count = ctx.trade_count ∧
    (check_exit_risk_control env p ctx eligible).1.symbol = ctx.symbol := by
  have hforce :
      (force_exit_due_to_risk_control env ctx eligible).1.position_size = ctx.position_size ∧
      (force_exit_due_to_risk_control env ctx eligible).1.trade_count = ctx.trade_count ∧
      (force_exit_due_to_risk_control env ctx eligible).1.symbol = ctx.symbol := by
    simp only [force_exit_due_to_risk_control, ban_symbol_trading]
    have hp := force_market_exit_preserves env ctx
    rcases hres : force_market_exit env ctx with ⟨c1, eff⟩
    rw [hres] at hp
    exact ⟨hp.1, hp.2.1, hp.2.2.2⟩
  unfold check_exit_risk_control
  dsimp only
  repeat' split
  all_goals first
    | exact ⟨rfl, rfl, rfl⟩
    | exact hforce

/-- `_check_and_execute_trigger` never touches `position_size`,
`trade_count` or the symbol. -/
theorem check_and_execute_trigger_preserves (env : Env) (ctx : StockContext)
    (eligible : List String) (tick : Tick) :
    (check_and_execute_trigger env ctx eligible tick).1.position_size = ctx.position_size ∧
    (check_and_execute_trigger env ctx eligible tick).1.trade_count = ctx.trade_count ∧
    (check_and_execute_trigger env ctx eligible tick).1.symbol = ctx.symbol := by
  have hS := execute_entry_preserves env ctx ctx.entry_trigger_order_price .SHORT
  have hL := execute_entry_preserves env ctx ctx.entry_trigger_order_price .LONG
  unfold check_and_execute_trigger execute_triggered_entry
  dsimp only
  repeat' split
  all_goals first
    | exact ⟨rfl, rfl, rfl⟩
    | exact ⟨hS.1, hS.2.1, hS.2.2.2⟩
    | exact ⟨hL.1, hL.2.1, hL.2.2.2⟩

/-- `_generate_trading_signal` never touches `position_size`, `trade_count`
or the symbol (in every non-crashing run). -/
theorem generate_trading_signal_preserves (env : Env) (p : Params)
    (ctx : StockContext) (bar : Bar) (inds : Indicators)
    (r : StockContext × List Effect)
    (h : generate_trading_signal env p ctx bar inds = .ok r) :
    r.1.position_size = ctx.position_size ∧
    r.1.trade_count = ctx.trade_count ∧
    r.1.symbol = ctx.symbol := by
  have hS := execute_entry_preserves env ctx (calculate_entry_price env p ctx inds) .SHORT
  have hL := execute_entry_preserves env ctx (calculate_entry_price env p ctx inds) .LONG
  unfold generate_trading_signal is_price_within_atr_range at h
  dsimp only at h
  repeat' split at h
  all_goals first
    | exact Except.noConfusion h
    | (injection h with h2; subst h2;
       first
         | exact ⟨rfl, rfl, rfl⟩
         | exact ⟨hS.1, hS.2.1, hS.2.2.2⟩
         | exact ⟨hL.1, hL.2.1, hL.2.2.2⟩
         | (cases hg : env.gap_dir <;> simp [set_trigger_prices, hg]))

/-- `_execute_trade` always issues exactly one `sendOrder` call, for the
request it builds. -/
theorem execute_trade_effects (env : Env) (ctx : StockContext) (price : ℚ)
    (dir : Direction) (off : Offset) (otype : OrderType) :
    (execute_trade env ctx price dir off otype).2.1 =
      [Effect.sendOrder { symbol := ctx.symbol, direction := dir, otype := otype,
                          volume := ctx.position_size, price := price, offset := off }] := by
  simp only [execute_trade, execute_order]
  cases h : env.send_order
      { symbol := ctx.symbol, direction := dir, otype := otype,
        volume := ctx.position_size, price := price, offset := off } with
  | none => simp
  | some oid => by_cases ho : off = .OPEN <;> simp [ho]

/-- `_force_market_exit` sends a market close order for the instrument. -/
theorem force_market_exit_has_market_order (env : Env) (ctx : StockContext) :
    ∃ req, Effect.sendOrder req ∈ (force_market_exit env ctx).2 ∧
      req.otype = .MARKET ∧ req.offset = .CLOSE ∧ req.symbol = ctx.symbol ∧
      req.price = 0 := by
  refine ⟨{ symbol := ctx.symbol,
            direction := if is_gap_up env then Direction.LONG else Direction.SHORT,
            otype := .MARKET, volume := ctx.position_size, price := 0,
            offset := .CLOSE }, ?_, rfl, rfl, rfl, rfl⟩
  have he := execute_trade_effects env ctx 0
    (if is_gap_up env then Direction.LONG else Direction.SHORT) .CLOSE .MARKET
  simp only [force_market_exit, execute_exit]
  rw [he]
  exact List.mem_append_right _ (List.mem_singleton.mpr rfl)

/-- `_force_exit_due_to_risk_control` bans the instrument, filters it out of
the eligible set, and performs exactly the market-exit gateway calls. -/
theorem force_exit_risk_spec (env : Env) (ctx : StockContext)
    (eligible : List String) :
    (force_exit_due_to_risk_control env ctx eligible).1.trading_banned = true ∧
    (force_exit_due_to_risk_control env ctx eligible).2.1 =
      eligible.filter (· ≠ ctx.symbol) ∧
    (force_exit_due_to_risk_control env ctx eligible).2.2 =
      (force_market_exit env ctx).2 := by
  have hp := force_market_exit_preserves env ctx
  refine ⟨rfl, ?_, rfl⟩
  have h2 : (force_exit_due_to_risk_control env ctx eligible).2.1
      = eligible.filter (· ≠ (force_market_exit env ctx).1.symbol) := rfl
  rw [h2, hp.2.2.2]

/-- If `_execute_entry` leaves the context in `WAITING_ENTRY`, the order was
accepted and both deferred-entry trigger fields were reset to zero. -/
theorem execute_entry_success_fields (env : Env) (ctx : StockContext)
    (price : ℚ) (dir : Direction)
    (h : (execute_entry env ctx price dir).1.state = .WAITING_ENTRY) :
    (execute_entry env ctx price dir).1.entry_trigger_price = 0 ∧
    (execute_entry env ctx price dir).1.entry_trigger_order_price = 0 := by
  simp only [execute_entry, execute_trade, execute_order] at h ⊢
  cases hs : env.send_order
      { symbol := ctx.symbol, direction := dir, otype := .LIMIT,
        volume := ctx.position_size, price := price, offset := .OPEN } with
  | none => rw [hs] at h; simp at h
  | some oid => simp

/-- The per-tick trigger check is a no-op when a trigger field is not
positive. -/
theorem trigger_noop_of_no_trigger (env : Env) (ctx : StockContext)
    (eligible : List String) (tick : Tick)
    (h : ctx.entry_trigger_price ≤ 0 ∨ ctx.entry_trigger_order_price ≤ 0) :
    check_and_execute_trigger env ctx eligible tick = (ctx, [], false) := by
  simp only [check_and_execute_trigger]
  rw [if_pos h]

/-- In `WAITING_TIMEOUT_EXIT` with the second-stage period not yet elapsed
and the candle outside the fixed closing window, `_check_exit_timeout`
returns `True` without touching the context or the gateway. -/
theorem check_exit_timeout_stage2_noop (env : Env) (p : Params)
    (ctx : StockContext) (bar : Bar) (t ts : ℤ)
    (hstate : ctx.state = .WAITING_TIMEOUT_EXIT)
    (ht : ctx.exit_start_time = some t)
    (hts : ctx.timeout_exit_start_time = some ts)
    (hid : ctx.exit_order_id ≠ "")
    (hnoper : ¬ (bar.datetime + 60 - ts ≥ 60 * p.timeout_exit_max_period))
    (hnoclose : is_within_morning_closing_time bar.datetime = false) :
    check_exit_timeout env p ctx bar = .ok (ctx, [], true) := by
  have hnorm : bar.datetime + 60 - 60 = bar.datetime := by ring
  simp only [check_exit_timeout, ht, hts]
  rw [if_neg hid, hnorm]
  rw [if_neg (fun hh => by rw [hstate] at hh; exact absurd hh.1 (by decide))]
  rw [if_pos hstate]
  rw [if_neg (fun hh => hh.elim hnoper
    (fun hcl => by rw [hnoclose] at hcl; exact absurd hcl (by decide)))]

/-- After a first-stage escalation with a current bar available,
`_start_timeout_exit` leaves the context in `WAITING_TIMEOUT_EXIT`, stamps
`timeout_exit_start_time` with the wall clock, and keeps an exit-order id
and an exit start time (whether or not the re-quote was accepted). -/
theorem start_timeout_exit_props (env : Env) (ctx : StockContext) (cb : Bar)
    (t0 : ℤ)
    (hbar : env.current_bar = some cb)
    (ht0 : ctx.exit_start_time = some t0)
    (hid : ctx.exit_order_id ≠ "")
    (hsend : ∀ r oid, env.send_order r = some oid → oid ≠ "") :
    (start_timeout_exit env ctx).1.state = .WAITING_TIMEOUT_EXIT ∧
    (start_timeout_exit env ctx).1.timeout_exit_start_time = some env.now ∧
    (∃ u, (start_timeout_exit env ctx).1.exit_start_time = some u) ∧
    (start_timeout_exit env ctx).1.exit_order_id ≠ "" := by
  simp only [start_timeout_exit, hbar, execute_exit, execute_trade,
    execute_order]
  cases hs : env.send_order
      { symbol := ctx.symbol,
        direction := if is_gap_up env then Direction.LONG else Direction.SHORT,
        otype := .LIMIT, volume := ctx.position_size, price := cb.close_price,
        offset := .CLOSE } with
  | none => exact ⟨by trivial, by trivial, ⟨t0, by simp [ht0]⟩, by simpa using hid⟩
  | some oid =>
    refine ⟨by trivial, by trivial, ⟨env.now, by simp⟩, ?_⟩
    simpa using hsend _ oid hs

/-- With a gateway that answers `idOf`, an OPEN `_execute_trade` moves to
`WAITING_ENTRY`, records the id of the request it sent, and leaves the exit
id and the counters alone. -/
theorem execute_trade_open_spec (env : Env) (ctx : StockContext) (price : ℚ)
    (dir : Direction) (otype : OrderType) (idOf : OrderRequest → String)
    (hsend : ∀ r, env.send_order r = some (idOf r)) :
    (execute_trade env ctx price dir .OPEN otype).1.state = .WAITING_ENTRY ∧
    (execute_trade env ctx price dir .OPEN otype).1.entry_order_id =
      idOf { symbol := ctx.symbol, direction := dir, otype := otype,
             volume := ctx.position_size, price := price, offset := .OPEN } ∧
    (execute_trade env ctx price dir .OPEN otype).1.exit_order_id = ctx.exit_order_id ∧
    (execute_trade env ctx price dir .OPEN otype).1.trade_count = ctx.trade_count ∧
    (execute_trade env ctx price dir .OPEN otype).2.2 =
      some (idOf { symbol := ctx.symbol, direction := dir, otype := otype,
                   volume := ctx.position_size, price := price, offset := .OPEN }) := by
  simp [execute_trade, execute_order, hsend]

/-- With a gateway that answers `idOf`, a CLOSE `_execute_trade` moves to
`WAITING_EXIT`, records the id of the request it sent, and leaves the entry
id and the counters alone. -/
theorem execute_trade_close_spec (env : Env) (ctx : StockContext) (price : ℚ)
    (dir : Direction) (otype : OrderType) (idOf : OrderRequest → String)
    (hsend : ∀ r, env.send_order r = some (idOf r)) :
    (execute_trade env ctx price dir .CLOSE otype).1.state = .WAITING_EXIT ∧
    (execute_trade env ctx price dir .CLOSE otype).1.exit_order_id =
      idOf { symbol := ctx.symbol, direction := dir, otype := otype,
             volume := ctx.position_size, price := price, offset := .CLOSE } ∧
    (execute_trade env ctx price dir .CLOSE otype).1.entry_order_id = ctx.entry_order_id ∧
    (execute_trade env ctx price dir .CLOSE otype).1.trade_count = ctx.trade_count := by
  simp [execute_trade, execute_order, hsend]

/-- When the OPEN trade was accepted, `_execute_entry` returns the trade's
context unchanged (no rejection fallback). -/
theorem execute_entry_of_sent (env : Env) (ctx : StockContext) (price : ℚ)
    (dir : Direction) (oid : String)
    (h : (execute_trade env ctx price dir .OPEN .LIMIT).2.2 = some oid) :
    (execute_entry env ctx price dir).1 =
      (execute_trade env ctx price dir .OPEN .LIMIT).1 := by
  simp only [execute_entry]
  rcases hres : execute_trade env ctx price dir .OPEN .LIMIT with ⟨a, b, c⟩
  rw [hres] at h
  dsimp only at h
  cases c with
  | none => exact absurd h (by simp)
  | some oid2 => rfl

/-- A full entry fill (status `ALLTRADED`) places the exit limit order: the
context moves to `WAITING_EXIT` with the new exit-order id — and keeps its
`entry_order_id`, which the handler never clears. -/
theorem handle_entry_alltraded_spec (env : Env) (p : Params)
    (ctx : StockContext) (o : OrderData) (idOf : OrderRequest → String)
    (hsend : ∀ r, env.send_order r = some (idOf r))
    (hst : o.status = .ALLTRADED) :
    ∃ reqX : OrderRequest, reqX.offset = .CLOSE ∧
      (handle_entry_order_update env p ctx o).1.state = .WAITING_EXIT ∧
      (handle_entry_order_update env p ctx o).1.exit_order_id = idOf reqX ∧
      (handle_entry_order_update env p ctx o).1.entry_order_id = ctx.entry_order_id ∧
      (handle_entry_order_update env p ctx o).1.trade_count = ctx.trade_count := by
  have hne : o.status ≠ Status.REJECTED := by rw [hst]; decide
  have hred : (handle_entry_order_update env p ctx o).1 =
      (execute_trade env
        { ctx with state := .HOLDING, already_traded := 0,
                   entry_price := o.price, entry_time := o.datetime }
        (calculate_exit_price env p
          { ctx with state := .HOLDING, already_traded := 0,
                     entry_price := o.price, entry_time := o.datetime }
          env.get_indicators)
        (if is_gap_up env then Direction.LONG else Direction.SHORT)
        .CLOSE .LIMIT).1 := by
    simp [handle_entry_order_update, hst, generate_exit_order_from_order,
      execute_exit]
  have hclose := execute_trade_close_spec env
    { ctx with state := .HOLDING, already_traded := 0,
               entry_price := o.price, entry_time := o.datetime }
    (calculate_exit_price env p
      { ctx with state := .HOLDING, already_traded := 0,
                 entry_price := o.price, entry_time := o.datetime }
      env.get_indicators)
    (if is_gap_up env then Direction.LONG else Direction.SHORT)
    .LIMIT idOf hsend
  refine ⟨{ symbol := ctx.symbol,
            direction := if is_gap_up env then Direction.LONG else Direction.SHORT,
            otype := .LIMIT, volume := ctx.position_size,
            price := calculate_exit_price env p
              { ctx with state := .HOLDING, already_traded := 0,
                         entry_price := o.price, entry_time := o.datetime }
              env.get_indicators,
            offset := .CLOSE }, rfl, ?_, ?_, ?_, ?_⟩
  · rw [hred]; exact hclose.1
  · rw [hred]; exact hclose.2.1
  · rw [hred]; exact hclose.2.2.1
  · rw [hred]; exact hclose.2.2.2

/-- A full exit fill (status `ALLTRADED`) completes the round trip: state
back to `IDLE`, exit id cleared, `trade_count` + 1 — and `entry_order_id`
still untouched. -/
theorem handle_exit_alltraded_spec (ctx : StockContext) (o : OrderData)
    (hst : o.status = .ALLTRADED) :
    (handle_exit_order_update ctx o).1.state = .IDLE ∧
    (handle_exit_order_update ctx o).1.exit_order_id = "" ∧
    (handle_exit_order_update ctx o).1.trade_count = ctx.trade_count + 1 ∧
    (handle_exit_order_update ctx o).1.entry_order_id = ctx.entry_order_id := by
  have hne : o.status ≠ Status.REJECTED := by rw [hst]; decide
  simp [handle_exit_order_update, hst, hne]

/-! ### Claims -/

/-- **C6, counterexample.**  The claim says the day-rollover reset clears
all price fields; but `reset_all_contexts` never assigns `exit_price`, so a
context that carries a non-zero `exit_price` keeps it through the reset. -/
theorem C6_counterexample :
    (reset_context { StockContext.init "7203" with exit_price := 5 }).exit_price ≠ 0 := by
  decide

/-- **C6, amended.**  After the day-rollover reset every stored context is
restored to the dataclass defaults — state `IDLE`, both counters zero, both
order ids empty, entry price and both trigger prices zero, all three
timestamps cleared, `trading_banned` false — except that `exit_price` (and
the dynamic partial-fill counter `already_traded`) keep their previous
values; `position_size` and the symbol are preserved and no context is
destroyed (the key set of the context map is unchanged). -/
theorem C6_reset_restores_defaults_except_exit_price :
    (∀ contexts, (reset_all_contexts contexts).map Prod.fst = contexts.map Prod.fst) ∧
    (∀ c : StockContext, reset_context c =
      { StockContext.init c.symbol with
          max_exit_wait_time := c.max_exit_wait_time,
          position_size := c.position_size,
          exit_price := c.exit_price,
          already_traded := c.already_traded }) := by
  constructor
  · intro contexts
    simp [reset_all_contexts]
  · intro c
    rfl

/-- **C8.**  An order-update callback reporting the context's current exit
order as `REJECTED` moves the state to `HOLDING`, clears `exit_order_id`,
issues no gateway call, and leaves every other context field unchanged. -/
theorem C8_exit_rejected_to_holding (ctx : StockContext) (o : OrderData)
    (hstate : ctx.state = .WAITING_EXIT)
    (hrej : o.status = .REJECTED) :
    handle_exit_order_update ctx o =
      ({ ctx with state := .HOLDING, exit_order_id := "" }, []) := by
  simp [handle_exit_order_update, hrej]

/-- **C8, witness.** -/
theorem C8_exit_rejected_to_holding_witness :
    handle_exit_order_update
        { StockContext.init "7203" with
            state := .WAITING_EXIT, exit_order_id := "X1",
            trade_count := 2, position_size := 300 }
        { orderid := "X1", status := .REJECTED, otype := .LIMIT,
          price := 0, traded := 0, datetime := none } =
      ({ StockContext.init "7203" with
           state := .HOLDING, exit_order_id := "",
           trade_count := 2, position_size := 300 }, []) :=
  C8_exit_rejected_to_holding
    { StockContext.init "7203" with
        state := .WAITING_EXIT, exit_order_id := "X1",
        trade_count := 2, position_size := 300 }
    { orderid := "X1", status := .REJECTED, otype := .LIMIT,
      price := 0, traded := 0, datetime := none } rfl rfl

/-- **C9.**  `position_size` is computed once, when the context is created,
as `round(capital / previousClose / 100) × 100` floored at `100` (one lot);
looking up an existing context recomputes nothing, and none of the embedded
operations (order execution, the order-update handlers, the timeout and risk
checks, the trigger check, signal generation, or the day-rollover reset)
modifies it. -/
theorem C9_position_size_once (contexts : List (String × StockContext))
    (cap prev_close : ℚ) (sym : String) :
    (contexts.lookup sym = none → 0 < prev_close →
      (get_context contexts cap prev_close sym).1.position_size =
        max (pyRound (cap / prev_close / 100) * 100) 100) ∧
    (∀ c, contexts.lookup sym = some c →
      get_context contexts cap prev_close sym = (c, contexts)) ∧
    (∀ env ctx price dir off otype,
      (execute_trade env ctx price dir off otype).1.position_size = ctx.position_size) ∧
    (∀ env p ctx o,
      (handle_entry_order_update env p ctx o).1.position_size = ctx.position_size) ∧
    (∀ ctx o, (handle_exit_order_update ctx o).1.position_size = ctx.position_size) ∧
    (∀ env p ctx o, (on_order env p ctx o).1.position_size = ctx.position_size) ∧
    (∀ env p ctx bar r, check_exit_timeout env p ctx bar = .ok r →
      r.1.position_size = ctx.position_size) ∧
    (∀ env p ctx eligible,
      (check_exit_risk_control env p ctx eligible).1.position_size = ctx.position_size) ∧
    (∀ env ctx eligible tick,
      (check_and_execute_trigger env ctx eligible tick).1.position_size = ctx.position_size) ∧
    (∀ env p ctx bar inds r, generate_trading_signal env p ctx bar inds = .ok r →
      r.1.position_size = ctx.position_size) ∧
    (∀ c, (reset_context c).position_size = c.position_size) := by
  refine ⟨?_, ?_, ?_, ?_, ?_, ?_, ?_, ?_, ?_, ?_, ?_⟩
  · intro hnone hpos
    simp only [get_context, hnone, calculate_position_size]
    rw [if_neg (not_le.mpr hpos)]
  · intro c hc
    simp [get_context, hc]
  · intro env ctx price dir off otype
    exact (execute_trade_preserves env ctx price dir off otype).1
  · intro env p ctx o
    exact (handle_entry_order_update_preserves env p ctx o).1
  · intro ctx o
    exact (handle_exit_order_update_preserves ctx o).1
  · intro env p ctx o
    exact (on_order_preserves env p ctx o).1
  · intro env p ctx bar r h
    exact (check_exit_timeout_preserves env p ctx bar r h).1
  · intro env p ctx eligible
    exact (check_exit_risk_control_preserves env p ctx eligible).1
  · intro env ctx eligible tick
    exact (check_and_execute_trigger_preserves env ctx eligible tick).1
  · intro env p ctx bar inds r h
    exact (generate_trading_signal_preserves env p ctx bar inds r h).1
  · intro c
    rfl

/-- **C9, witness.**  Capital 1,000,000 and previous close 3333 give
`round(1000000 / 3333 / 100) * 100 = 300` shares. -/
theorem C9_position_size_once_witness :
    (get_context [] 1000000 3333 "7203").1.position_size = 300 := by
  have h := (C9_position_size_once [] 1000000 3333 "7203").1 rfl (by norm_num)
  rw [h]
  norm_num [pyRound]

/-- **C4, counterexample.**  The claim says `timeout_trade_count` is
incremented iff the filled exit order was a market order; but a LIMIT exit
order that fills while the context sits in `WAITING_TIMEOUT_EXIT` (the
first-stage timeout re-quote) also increments it. -/
theorem C4_counterexample :
    ((handle_exit_order_update
        { StockContext.init "7203" with
            state := .WAITING_TIMEOUT_EXIT, exit_order_id := "X1" }
        { orderid := "X1", status := .ALLTRADED, otype := .LIMIT,
          price := 99, traded := 0, datetime := none }).1.timeout_trade_count = 1) ∧
    OrderType.LIMIT ≠ OrderType.MARKET := by
  exact ⟨rfl, by decide⟩

/-- **C4, amended.**  Every full fill of the context's exit order increments
`trade_count` by exactly 1, and increments `timeout_trade_count` by exactly
1 iff the filled order was a market order **or** the context was in
`WAITING_TIMEOUT_EXIT`; no other embedded event increases `trade_count`
(the day-rollover reset sets it to zero). -/
theorem C4_trade_count_on_exit_fill :
    (∀ (ctx : StockContext) (o : OrderData), o.status = .ALLTRADED →
      (handle_exit_order_update ctx o).1.trade_count = ctx.trade_count + 1 ∧
      ((handle_exit_order_update ctx o).1.timeout_trade_count =
          ctx.timeout_trade_count + 1 ↔
        (o.otype = .MARKET ∨ ctx.state = .WAITING_TIMEOUT_EXIT)) ∧
      (¬(o.otype = .MARKET ∨ ctx.state = .WAITING_TIMEOUT_EXIT) →
        (handle_exit_order_update ctx o).1.timeout_trade_count =
          ctx.timeout_trade_count)) ∧
    (∀ (ctx : StockContext) (o : OrderData), o.status ≠ .ALLTRADED →
      (handle_exit_order_update ctx o).1.trade_count = ctx.trade_count) ∧
    (∀ env p ctx o,
      (handle_entry_order_update env p ctx o).1.trade_count = ctx.trade_count) ∧
    (∀ env ctx price dir off otype,
      (execute_trade env ctx price dir off otype).1.trade_count = ctx.trade_count) ∧
    (∀ env p ctx bar r, check_exit_timeout env p ctx bar = .ok r →
      r.1.trade_count = ctx.trade_count) ∧
    (∀ env p ctx eligible,
      (check_exit_risk_control env p ctx eligible).1.trade_count = ctx.trade_count) ∧
    (∀ env ctx eligible tick,
      (check_and_execute_trigger env ctx eligible tick).1.trade_count = ctx.trade_count) ∧
    (∀ env p ctx bar inds r, generate_trading_signal env p ctx bar inds = .ok r →
      r.1.trade_count = ctx.trade_count) ∧
    (∀ c : StockContext, (reset_context c).trade_count = 0) := by
  refine ⟨?_, ?_, ?_, ?_, ?_, ?_, ?_, ?_, ?_⟩
  · intro ctx o hst
    have hne : o.status ≠ Status.REJECTED := by rw [hst]; decide
    refine ⟨?_, ?_, ?_⟩
    · simp [handle_exit_order_update, hst, hne]
    · by_cases hinc : o.otype = OrderType.MARKET ∨
          ctx.state = StrategyState.WAITING_TIMEOUT_EXIT
      · simp [handle_exit_order_update, hst, hne, hinc]
      · simp [handle_exit_order_update, hst, hne, hinc]
    · intro hninc
      simp [handle_exit_order_update, hst, hne, hninc]
  · intro ctx o hst
    simp only [handle_exit_order_update]
    repeat' split
    all_goals first | rfl | simp_all
  · intro env p ctx o
    exact (handle_entry_order_update_preserves env p ctx o).2.1
  · intro env ctx price dir off otype
    exact (execute_trade_preserves env ctx price dir off otype).2.1
  · intro env p ctx bar r h
    exact (check_exit_timeout_preserves env p ctx bar r h).2.1
  · intro env p ctx eligible
    exact (check_exit_risk_control_preserves env p ctx eligible).2.1
  · intro env ctx eligible tick
    exact (check_and_execute_trigger_preserves env ctx eligible tick).2.1
  · intro env p ctx bar inds r h
    exact (generate_trading_signal_preserves env p ctx bar inds r h).2.1
  · intro c
    rfl

/-- **C4, witness.**  A market-order full fill from `WAITING_EXIT`:
`trade_count` 0 → 1 and `timeout_trade_count` 0 → 1. -/
theorem C4_trade_count_on_exit_fill_witness :
    (handle_exit_order_update
        { StockContext.init "7203" with
            state := .WAITING_EXIT, exit_order_id := "X1" }
        { orderid := "X1", status := .ALLTRADED, otype := .MARKET,
          price := 0, traded := 0, datetime := none }).1.trade_count = 1 ∧
    (handle_exit_order_update
        { StockContext.init "7203" with
            state := .WAITING_EXIT, exit_order_id := "X1" }
        { orderid := "X1", status := .ALLTRADED, otype := .MARKET,
          price := 0, traded := 0, datetime := none }).1.timeout_trade_count = 1 := by
  have h := C4_trade_count_on_exit_fill.1
    { StockContext.init "7203" with
        state := .WAITING_EXIT, exit_order_id := "X1" }
    { orderid := "X1", status := .ALLTRADED, otype := .MARKET,
      price := 0, traded := 0, datetime := none } rfl
  exact ⟨h.1, h.2.1.mpr (Or.inl rfl)⟩

/-- **C5.**  On a tick for a context in `WAITING_EXIT` (with the in-progress
bar and a non-empty indicator snapshot available, and positive `volume_ma5`
and `atr_14`): when the volume ratio reaches `exit_vol_ma5_ratio_threshold`,
the absolute candle move reaches `atr_14 * force_exit_atr_factor`, and the
move is unfavorable to the held position, a market exit order is placed,
`trading_banned` is set, and the symbol is removed from the eligible set so
`on_1min_bar` no longer processes it; when any of the three conditions
fails, nothing changes and no gateway call is made. -/
theorem C5_exit_risk_force_exit (env : Env) (p : Params) (ctx : StockContext)
    (eligible : List String) (b : Bar) (inds : Indicators)
    (hstate : ctx.state = .WAITING_EXIT)
    (hbar : env.current_bar = some b)
    (hinds : env.get_indicators = some inds)
    (hvol : 0 < inds.volume_ma5)
    (hatr : 0 < inds.atr_14) :
    ((b.volume / inds.volume_ma5 ≥ p.exit_vol_ma5_ratio_threshold ∧
      |b.close_price - b.open_price| ≥ inds.atr_14 * p.force_exit_atr_factor ∧
      get_price_movement_direction env b = .unfavorable) →
      (check_exit_risk_control env p ctx eligible).1.trading_banned = true ∧
      (∃ req, Effect.sendOrder req ∈ (check_exit_risk_control env p ctx eligible).2.2 ∧
        req.otype = .MARKET ∧ req.offset = .CLOSE ∧ req.symbol = ctx.symbol) ∧
      ¬ ctx.symbol ∈ (check_exit_risk_control env p ctx eligible).2.1 ∧
      on_1min_bar_processes (check_exit_risk_control env p ctx eligible).2.1
        ctx.symbol = false) ∧
    (¬(b.volume / inds.volume_ma5 ≥ p.exit_vol_ma5_ratio_threshold ∧
       |b.close_price - b.open_price| ≥ inds.atr_14 * p.force_exit_atr_factor ∧
       get_price_movement_direction env b = .unfavorable) →
      check_exit_risk_control env p ctx eligible = (ctx, eligible, [])) := by
  have hnotne : ¬ ctx.state ≠ StrategyState.WAITING_EXIT := fun hne => hne hstate
  constructor
  · rintro ⟨h1, h2, h3⟩
    have hres : check_exit_risk_control env p ctx eligible =
        force_exit_due_to_risk_control env ctx eligible := by
      simp only [check_exit_risk_control]
      rw [if_neg hnotne, hbar, hinds]
      dsimp only
      rw [if_neg (not_le.mpr hvol), if_neg (not_le.mpr hatr),
        if_pos ⟨h1, h2⟩, if_pos h3]
    have hspec := force_exit_risk_spec env ctx eligible
    have hmem := force_market_exit_has_market_order env ctx
    rw [hres]
    refine ⟨hspec.1, ?_, ?_, ?_⟩
    · rw [hspec.2.2]
      obtain ⟨req, hreq, hm, ho, hs, hp0⟩ := hmem
      exact ⟨req, hreq, hm, ho, hs⟩
    · rw [hspec.2.1]
      simp [List.mem_filter]
    · rw [hspec.2.1]
      simp [on_1min_bar_processes, List.mem_filter]
  · intro hneg
    simp only [check_exit_risk_control]
    rw [if_neg hnotne, hbar, hinds]
    dsimp only
    rw [if_neg (not_le.mpr hvol), if_neg (not_le.mpr hatr)]
    by_cases h12 : b.volume / inds.volume_ma5 ≥ p.exit_vol_ma5_ratio_threshold ∧
        |b.close_price - b.open_price| ≥ inds.atr_14 * p.force_exit_atr_factor
    · rw [if_pos h12, if_neg (fun h3 => hneg ⟨h12.1, h12.2, h3⟩)]
    · rw [if_neg h12]

/-- **C5, witness.**  A gap-up short position with an adverse up-move:
volume ratio 10 ≥ 5 and move 7 ≥ 2·3, unfavorable, forces the market exit;
and a favorable down-move of the same size does not. -/
theorem C5_exit_risk_force_exit_witness :
    (check_exit_risk_control
        { send_order := fun _ => some "M1", cancel_ok := fun _ => true,
          current_bar := some { symbol := "7203", datetime := 36000,
                                open_price := 100, high_price := 108,
                                low_price := 99, close_price := 107,
                                volume := 100 },
          last_tick_price := none,
          get_indicators := some { vwap := 100, atr_14 := 2, volume_ma5 := 10,
                                   above_vwap_count := 0, below_vwap_count := 3 },
          now := 36060, gap_dir := .up, next_tick_price := fun _ q _ => q }
        { exit_vol_ma5_ratio_threshold := 5, force_exit_atr_factor := 3 }
        { StockContext.init "7203" with
            state := .WAITING_EXIT, exit_order_id := "X1" }
        ["7203", "9984"]).1.trading_banned = true ∧
    ¬ "7203" ∈ (check_exit_risk_control
        { send_order := fun _ => some "M1", cancel_ok := fun _ => true,
          current_bar := some { symbol := "7203", datetime := 36000,
                                open_price := 100, high_price := 108,
                                low_price := 99, close_price := 107,
                                volume := 100 },
          last_tick_price := none,
          get_indicators := some { vwap := 100, atr_14 := 2, volume_ma5 := 10,
                                   above_vwap_count := 0, below_vwap_count := 3 },
          now := 36060, gap_dir := .up, next_tick_price := fun _ q _ => q }
        { exit_vol_ma5_ratio_threshold := 5, force_exit_atr_factor := 3 }
        { StockContext.init "7203" with
            state := .WAITING_EXIT, exit_order_id := "X1" }
        ["7203", "9984"]).2.1 := by
  have h := (C5_exit_risk_force_exit
      { send_order := fun _ => some "M1", cancel_ok := fun _ => true,
        current_bar := some { symbol := "7203", datetime := 36000,
                              open_price := 100, high_price := 108,
                              low_price := 99, close_price := 107,
                              volume := 100 },
        last_tick_price := none,
        get_indicators := some { vwap := 100, atr_14 := 2, volume_ma5 := 10,
                                 above_vwap_count := 0, below_vwap_count := 3 },
        now := 36060, gap_dir := .up, next_tick_price := fun _ q _ => q }
      { exit_vol_ma5_ratio_threshold := 5, force_exit_atr_factor := 3 }
      { StockContext.init "7203" with
          state := .WAITING_EXIT, exit_order_id := "X1" }
      ["7203", "9984"]
      { symbol := "7203", datetime := 36000, open_price := 100,
        high_price := 108, low_price := 99, close_price := 107, volume := 100 }
      { vwap := 100, atr_14 := 2, volume_ma5 := 10,
        above_vwap_count := 0, below_vwap_count := 3 }
      rfl rfl rfl (by norm_num) (by norm_num)).1
    (by refine ⟨by norm_num, by norm_num, ?_⟩
        simp [get_price_movement_direction]
        norm_num)
  exact ⟨h.1, h.2.2.1⟩

/-- **C10.**  (a) A successfully placed entry order resets both
deferred-entry trigger fields to zero; (b) the per-tick trigger check fires
only when both trigger fields are positive and the state is `IDLE`; (c) when
a firing places its order successfully (the context ends in
`WAITING_ENTRY`), the resulting context has both trigger fields zero and no
further trigger check can fire on it — so each persisted trigger causes at
most one successful entry-order placement. -/
theorem C10_trigger_single_shot :
    (∀ env ctx price dir otype c1 eff oid,
      execute_trade env ctx price dir .OPEN otype = (c1, eff, some oid) →
      c1.entry_trigger_price = 0 ∧ c1.entry_trigger_order_price = 0) ∧
    (∀ env ctx eligible tick,
      (check_and_execute_trigger env ctx eligible tick).2.2 = true →
      0 < ctx.entry_trigger_price ∧ 0 < ctx.entry_trigger_order_price ∧
      ctx.state = .IDLE) ∧
    (∀ env ctx eligible tick,
      (check_and_execute_trigger env ctx eligible tick).2.2 = true →
      (check_and_execute_trigger env ctx eligible tick).1.state = .WAITING_ENTRY →
      (check_and_execute_trigger env ctx eligible tick).1.entry_trigger_price = 0 ∧
      (check_and_execute_trigger env ctx eligible tick).1.entry_trigger_order_price = 0 ∧
      ∀ eligible2 tick2,
        (check_and_execute_trigger env
          (check_and_execute_trigger env ctx eligible tick).1 eligible2 tick2).2.2
          = false) := by
  refine ⟨?_, ?_, ?_⟩
  · intro env ctx price dir otype c1 eff oid h
    cases hs : env.send_order
        { symbol := ctx.symbol, direction := dir, otype := otype,
          volume := ctx.position_size, price := price, offset := .OPEN } with
    | none =>
      simp only [execute_trade, execute_order] at h
      rw [hs] at h
      simp at h
    | some oid2 =>
      simp only [execute_trade, execute_order] at h
      rw [hs] at h
      have h1 := congrArg (fun t => t.1.entry_trigger_price) h
      have h2 := congrArg (fun t => t.1.entry_trigger_order_price) h
      exact ⟨h1.symm, h2.symm⟩
  · intro env ctx eligible tick h
    simp only [check_and_execute_trigger, execute_triggered_entry] at h
    split at h
    · simp at h
    · split at h
      · simp at h
      · split at h
        · simp at h
        · rename_i hfield hstate helig
          push_neg at hfield
          exact ⟨hfield.1, hfield.2, not_not.mp hstate⟩
  · intro env ctx eligible tick hfire hw
    have hzero : (check_and_execute_trigger env ctx eligible tick).1.entry_trigger_price = 0 ∧
        (check_and_execute_trigger env ctx eligible tick).1.entry_trigger_order_price = 0 := by
      by_cases h1 : ctx.entry_trigger_price ≤ 0 ∨ ctx.entry_trigger_order_price ≤ 0
      · rw [trigger_noop_of_no_trigger env ctx eligible tick h1] at hfire
        simp at hfire
      · by_cases h2 : ctx.state ≠ StrategyState.IDLE
        · simp only [check_and_execute_trigger, if_neg h1, if_pos h2] at hfire
          simp at hfire
        · by_cases h3 : ¬ tick.symbol ∈ eligible
          · simp only [check_and_execute_trigger, if_neg h1, if_neg h2, if_pos h3] at hfire
            simp at hfire
          · simp only [check_and_execute_trigger, execute_triggered_entry,
              if_neg h1, if_neg h2, if_neg h3] at hfire hw ⊢
            cases hg : env.gap_dir with
            | up =>
              rw [hg] at hfire hw
              dsimp only at hfire hw ⊢
              by_cases h4 : tick.last_price ≥ ctx.entry_trigger_price
              · rw [if_pos h4] at hw ⊢
                exact execute_entry_success_fields env ctx
                  ctx.entry_trigger_order_price .SHORT hw
              · rw [if_neg h4] at hfire
                simp at hfire
            | down =>
              rw [hg] at hfire hw
              dsimp only at hfire hw ⊢
              by_cases h4 : tick.last_price ≤ ctx.entry_trigger_price
              · rw [if_pos h4] at hw ⊢
                exact execute_entry_success_fields env ctx
                  ctx.entry_trigger_order_price .LONG hw
              · rw [if_neg h4] at hfire
                simp at hfire
            | nodir =>
              rw [hg] at hfire
              simp at hfire
    refine ⟨hzero.1, hzero.2, ?_⟩
    intro eligible2 tick2
    rw [trigger_noop_of_no_trigger env _ eligible2 tick2 (Or.inl (le_of_eq hzero.1))]

/-- **C10, witness.**  A gap-up trigger at 103 with order price 105 fires on
a tick at 104; the placed entry clears both trigger fields and an immediate
second trigger check does not fire. -/
theorem C10_trigger_single_shot_witness :
    (check_and_execute_trigger
        { send_order := fun _ => some "E1", cancel_ok := fun _ => true,
          current_bar := none, last_tick_price := none, get_indicators := none,
          now := 0, gap_dir := .up, next_tick_price := fun _ q _ => q }
        { StockContext.init "7203" with
            entry_trigger_price := 103, entry_trigger_order_price := 105 }
        ["7203"]
        { symbol := "7203", datetime := 0, last_price := 104 }).1.entry_trigger_price = 0 ∧
    (check_and_execute_trigger
        { send_order := fun _ => some "E1", cancel_ok := fun _ => true,
          current_bar := none, last_tick_price := none, get_indicators := none,
          now := 0, gap_dir := .up, next_tick_price := fun _ q _ => q }
        { StockContext.init "7203" with
            entry_trigger_price := 103, entry_trigger_order_price := 105 }
        ["7203"]
        { symbol := "7203", datetime := 0, last_price := 104 }).1.entry_trigger_order_price = 0 ∧
    (check_and_execute_trigger
        { send_order := fun _ => some "E1", cancel_ok := fun _ => true,
          current_bar := none, last_tick_price := none, get_indicators := none,
          now := 0, gap_dir := .up, next_tick_price := fun _ q _ => q }
        (check_and_execute_trigger
          { send_order := fun _ => some "E1", cancel_ok := fun _ => true,
            current_bar := none, last_tick_price := none, get_indicators := none,
            now := 0, gap_dir := .up, next_tick_price := fun _ q _ => q }
          { StockContext.init "7203" with
              entry_trigger_price := 103, entry_trigger_order_price := 105 }
          ["7203"]
          { symbol := "7203", datetime := 0, last_price := 104 }).1
        ["7203"]
        { symbol := "7203", datetime := 0, last_price := 104 }).2.2 = false := by
  have h := C10_trigger_single_shot.2.2
    { send_order := fun _ => some "E1", cancel_ok := fun _ => true,
      current_bar := none, last_tick_price := none, get_indicators := none,
      now := 0, gap_dir := .up, next_tick_price := fun _ q _ => q }
    { StockContext.init "7203" with
        entry_trigger_price := 103, entry_trigger_order_price := 105 }
    ["7203"]
    { symbol := "7203", datetime := 0, last_price := 104 }
    (by decide) (by decide)
  exact ⟨h.1, h.2.1, h.2.2 ["7203"] { symbol := "7203", datetime := 0, last_price := 104 }⟩

/-- **C2** (code bug witnessed on the embedding): with deferred-entry mode
enabled, a gap-up entry signal that fires for a context in `IDLE` with
`atr_14 = 2 > 0` does **not** complete: `_generate_trading_signal` passes
`atr_multiplier=None` into `_is_price_within_atr_range`, whose
`atr * atr_multiplier` is a Python `TypeError` (`float * None`), so signal
evaluation raises instead of placing an order or persisting the trigger
fields.  All of the claim's preconditions hold at this input: within
trading time, `trade_count` 0 below the cap, state `IDLE`, gap direction
known, and `below_vwap_count = 3` at the firing threshold. -/
theorem C2_deferred_entry_signal_raises :
    generate_trading_signal
        { send_order := fun _ => some "E1", cancel_ok := fun _ => true,
          current_bar := none, last_tick_price := none, get_indicators := none,
          now := 36060, gap_dir := .up, next_tick_price := fun _ q _ => q }
        { enable_delayed_entry := true }
        (StockContext.init "7203")
        { symbol := "7203", datetime := 36000, open_price := 100,
          high_price := 104, low_price := 99, close_price := 103, volume := 10 }
        { vwap := 100, atr_14 := 2, volume_ma5 := 10,
          above_vwap_count := 0, below_vwap_count := 3 } = .error "TypeError" ∧
    (0 : ℚ) < 2 ∧
    (StockContext.init "7203").state = .IDLE ∧
    (StockContext.init "7203").trade_count = 0 ∧
    is_within_trading_time { enable_delayed_entry := true } 36000 = true := by
  exact ⟨rfl, by norm_num, rfl, rfl, by decide⟩

/-- **C3, amended.**  For a context in `WAITING_EXIT` with an outstanding
exit order (non-empty id, `exit_start_time` set), a successful cancel, and a
current in-progress bar, the first-stage timeout check escalates — cancels
the outstanding limit order, places a new limit order at the in-progress
bar's close (the latest trade price), and moves the state to
`WAITING_TIMEOUT_EXIT` — **exactly when** the code's clock
(candle timestamp + 1 minute) is at least `max exit wait time − 1` minutes
past `exit_start_time`, or the candle timestamp falls in the fixed
pre-close cutoff window; otherwise it does nothing. -/
theorem C3_first_stage_timeout_escalation (env : Env) (p : Params)
    (ctx : StockContext) (bar : Bar) (t0 : ℤ) (cb : Bar)
    (hstate : ctx.state = .WAITING_EXIT)
    (ht0 : ctx.exit_start_time = some t0)
    (hid : ctx.exit_order_id ≠ "")
    (hcancel : env.cancel_ok ctx.exit_order_id = true)
    (hbar : env.current_bar = some cb) :
    ((bar.datetime + 60 - t0 ≥ 60 * (get_exit_wait_time env p - 1) ∨
      is_within_one_min_before_morning_closing_start bar.datetime = true) →
      check_exit_timeout env p ctx bar =
        .ok ((start_timeout_exit env ctx).1,
          Effect.cancelOrder ctx.exit_order_id :: (start_timeout_exit env ctx).2,
          true) ∧
      (start_timeout_exit env ctx).1.state = .WAITING_TIMEOUT_EXIT ∧
      (start_timeout_exit env ctx).2 =
        [Effect.sendOrder
          { symbol := ctx.symbol,
            direction := if is_gap_up env then Direction.LONG else Direction.SHORT,
            otype := .LIMIT, volume := ctx.position_size,
            price := cb.close_price, offset := .CLOSE }]) ∧
    (¬(bar.datetime + 60 - t0 ≥ 60 * (get_exit_wait_time env p - 1) ∨
       is_within_one_min_before_morning_closing_start bar.datetime = true) →
      check_exit_timeout env p ctx bar = .ok (ctx, [], false)) := by
  have hnorm : bar.datetime + 60 - 60 = bar.datetime := by ring
  have hc : cancel_order_safely env ctx.exit_order_id =
      ([Effect.cancelOrder ctx.exit_order_id], true) := by
    simp only [cancel_order_safely, if_neg hid, hcancel]
  constructor
  · intro hcond
    refine ⟨?_, ?_, ?_⟩
    · simp only [check_exit_timeout, ht0]
      rw [if_neg hid, hnorm, if_pos ⟨hstate, hcond⟩, hc]
      simp
    · simp only [start_timeout_exit, hbar, execute_exit]
    · simp only [start_timeout_exit, hbar, execute_exit]
      exact execute_trade_effects env ctx cb.close_price
        (if is_gap_up env then Direction.LONG else Direction.SHORT) .CLOSE .LIMIT
  · intro hcond
    simp only [check_exit_timeout, ht0]
    rw [if_neg hid, hnorm, if_neg (fun hh => hcond hh.2),
      if_neg (by rw [hstate]; decide)]

/-- **C3, counterexample.**  A gap-up context whose exit wait limit is the
default 30 minutes escalates on the candle stamped 28 minutes after
`exit_start_time`: the code's clock (candle + 1 minute) is 29 minutes, one
minute **before** the claimed "at least the max exit wait time" bound, and
no pre-close cutoff is crossed — refuting "…and not before". -/
theorem C3_counterexample :
    (check_exit_timeout
        { send_order := fun _ => some "X2", cancel_ok := fun _ => true,
          current_bar := some { symbol := "7203", datetime := 1680,
                                open_price := 100, high_price := 101,
                                low_price := 99, close_price := 100,
                                volume := 10 },
          last_tick_price := none, get_indicators := none,
          now := 1740, gap_dir := .up, next_tick_price := fun _ q _ => q }
        {}
        { StockContext.init "7203" with
            state := .WAITING_EXIT, exit_order_id := "X1",
            exit_start_time := some 0, exit_price := 99 }
        { symbol := "7203", datetime := 1680, open_price := 100,
          high_price := 101, low_price := 99, close_price := 100,
          volume := 10 }).toOption.map (fun r => (r.1.state, r.2.2)) =
      some (StrategyState.WAITING_TIMEOUT_EXIT, true) ∧
    get_exit_wait_time
        { send_order := fun _ => some "X2", cancel_ok := fun _ => true,
          current_bar := some { symbol := "7203", datetime := 1680,
                                open_price := 100, high_price := 101,
                                low_price := 99, close_price := 100,
                                volume := 10 },
          last_tick_price := none, get_indicators := none,
          now := 1740, gap_dir := .up, next_tick_price := fun _ q _ => q }
        {} = 30 ∧
    ((1680 : ℤ) + 60) - 0 < 60 * 30 ∧
    is_within_one_min_before_morning_closing_start 1680 = false := by
  refine ⟨rfl, rfl, by norm_num, by decide⟩

/-- **C7, amended.**  After a first invocation of the exit-timeout check has
escalated a `WAITING_EXIT` context (with a current bar available and
non-empty gateway order ids), a second invocation with the same candle and
the same wall clock is a no-op — context unchanged and no gateway call —
**provided** the candle timestamp is outside the fixed morning-closing
window (and the second-stage period has not elapsed); inside that window
the second invocation performs the second-stage market escalation instead. -/
theorem C7_second_check_noop_outside_closing (env : Env) (p : Params)
    (ctx : StockContext) (bar : Bar) (t0 : ℤ) (cb : Bar)
    (c1 : StockContext) (eff1 : List Effect)
    (hstate : ctx.state = .WAITING_EXIT)
    (ht0 : ctx.exit_start_time = some t0)
    (hid : ctx.exit_order_id ≠ "")
    (hbar : env.current_bar = some cb)
    (hsend : ∀ r oid, env.send_order r = some oid → oid ≠ "")
    (h1 : check_exit_timeout env p ctx bar = .ok (c1, eff1, true))
    (hnoper : bar.datetime + 60 - env.now < 60 * p.timeout_exit_max_period)
    (hnoclose : is_within_morning_closing_time bar.datetime = false) :
    check_exit_timeout env p c1 bar = .ok (c1, [], true) := by
  have hnorm : bar.datetime + 60 - 60 = bar.datetime := by ring
  have hprops := start_timeout_exit_props env ctx cb t0 hbar ht0 hid hsend
  simp only [check_exit_timeout, ht0] at h1
  rw [if_neg hid, hnorm] at h1
  split at h1
  · rcases hcc : cancel_order_safely env ctx.exit_order_id with ⟨ceff, ok⟩
    rw [hcc] at h1
    cases ok with
    | false =>
      simp only [Bool.false_eq_true, if_false] at h1
      injection h1 with h2
      simp at h2
    | true =>
      simp only [if_true] at h1
      injection h1 with h2
      have hc1 : (start_timeout_exit env ctx).1 = c1 := congrArg Prod.fst h2
      rw [← hc1]
      obtain ⟨hra, hrb, ⟨u, hru⟩, hrd⟩ := hprops
      exact check_exit_timeout_stage2_noop env p _ bar u env.now hra hru hrb hrd
        (not_le.mpr hnoper) hnoclose
  · rw [if_neg (by rw [hstate]; decide)] at h1
    injection h1 with h2
    simp at h2

/-- **C7, witness.**  Outside the closing window (candle at 00:28:00,
clock 00:29:00) the first check escalates and the second check with the
same candle and clock changes nothing and issues no gateway call. -/
theorem C7_second_check_noop_witness :
    check_exit_timeout
        { send_order := fun _ => some "X2", cancel_ok := fun _ => true,
          current_bar := some { symbol := "7203", datetime := 1680,
                                open_price := 100, high_price := 101,
                                low_price := 99, close_price := 100,
                                volume := 10 },
          last_tick_price := none, get_indicators := none,
          now := 1740, gap_dir := .up, next_tick_price := fun _ q _ => q }
        {}
        { StockContext.init "7203" with
            state := .WAITING_TIMEOUT_EXIT, exit_order_id := "X2",
            exit_start_time := some 1740, timeout_exit_start_time := some 1740,
            exit_price := 100 }
        { symbol := "7203", datetime := 1680, open_price := 100,
          high_price := 101, low_price := 99, close_price := 100,
          volume := 10 } =
      .ok ({ StockContext.init "7203" with
               state := .WAITING_TIMEOUT_EXIT, exit_order_id := "X2",
               exit_start_time := some 1740, timeout_exit_start_time := some 1740,
               exit_price := 100 }, [], true) := by
  exact C7_second_check_noop_outside_closing
    { send_order := fun _ => some "X2", cancel_ok := fun _ => true,
      current_bar := some { symbol := "7203", datetime := 1680,
                            open_price := 100, high_price := 101,
                            low_price := 99, close_price := 100,
                            volume := 10 },
      last_tick_price := none, get_indicators := none,
      now := 1740, gap_dir := .up, next_tick_price := fun _ q _ => q }
    {}
    { StockContext.init "7203" with
        state := .WAITING_EXIT, exit_order_id := "X1",
        exit_start_time := some 0, exit_price := 99 }
    { symbol := "7203", datetime := 1680, open_price := 100,
      high_price := 101, low_price := 99, close_price := 100, volume := 10 }
    0
    { symbol := "7203", datetime := 1680, open_price := 100,
      high_price := 101, low_price := 99, close_price := 100, volume := 10 }
    { StockContext.init "7203" with
        state := .WAITING_TIMEOUT_EXIT, exit_order_id := "X2",
        exit_start_time := some 1740, timeout_exit_start_time := some 1740,
        exit_price := 100 }
    [Effect.cancelOrder "X1",
     Effect.sendOrder { symbol := "7203", direction := .LONG, otype := .LIMIT,
                        volume := 100, price := 100, offset := .CLOSE }]
    rfl rfl (by decide) rfl
    (fun r oid h => by cases h; decide)
    rfl (by norm_num) (by decide)

/-- **C7, counterexample.**  With the candle stamped 11:25:00 — inside both
the pre-close cutoff and the closing window — and no new time passing, the
first check escalates to `WAITING_TIMEOUT_EXIT`, and the **second** check
with the same candle immediately fires the second stage: it changes the
context (state back to `WAITING_EXIT`, exit price 0) and issues a second
cancel plus a market order, refuting "the second invocation leaves the
context unchanged and issues no duplicate cancel or order-placement
calls". -/
theorem C7_counterexample :
    (check_exit_timeout
        { send_order := fun _ => some "X2", cancel_ok := fun _ => true,
          current_bar := some { symbol := "7203", datetime := 41100,
                                open_price := 100, high_price := 101,
                                low_price := 99, close_price := 100,
                                volume := 10 },
          last_tick_price := none, get_indicators := none,
          now := 41160, gap_dir := .up, next_tick_price := fun _ q _ => q }
        {}
        { StockContext.init "7203" with
            state := .WAITING_EXIT, exit_order_id := "X1",
            exit_start_time := some 0, exit_price := 99 }
        { symbol := "7203", datetime := 41100, open_price := 100,
          high_price := 101, low_price := 99, close_price := 100,
          volume := 10 }).toOption =
      some ({ StockContext.init "7203" with
                state := .WAITING_TIMEOUT_EXIT, exit_order_id := "X2",
                exit_start_time := some 41160,
                timeout_exit_start_time := some 41160, exit_price := 100 },
            [Effect.cancelOrder "X1",
             Effect.sendOrder { symbol := "7203", direction := .LONG,
                                otype := .LIMIT, volume := 100, price := 100,
                                offset := .CLOSE }],
            true) ∧
    (check_exit_timeout
        { send_order := fun _ => some "X2", cancel_ok := fun _ => true,
          current_bar := some { symbol := "7203", datetime := 41100,
                                open_price := 100, high_price := 101,
                                low_price := 99, close_price := 100,
                                volume := 10 },
          last_tick_price := none, get_indicators := none,
          now := 41160, gap_dir := .up, next_tick_price := fun _ q _ => q }
        {}
        { StockContext.init "7203" with
            state := .WAITING_TIMEOUT_EXIT, exit_order_id := "X2",
            exit_start_time := some 41160,
            timeout_exit_start_time := some 41160, exit_price := 100 }
        { symbol := "7203", datetime := 41100, open_price := 100,
          high_price := 101, low_price := 99, close_price := 100,
          volume := 10 }).toOption =
      some ({ StockContext.init "7203" with
                state := .WAITING_EXIT, exit_order_id := "X2",
                exit_start_time := some 41160,
                timeout_exit_start_time := some 41160, exit_price := 0 },
            [Effect.cancelOrder "X2",
             Effect.sendOrder { symbol := "7203", direction := .LONG,
                                otype := .MARKET, volume := 100, price := 0,
                                offset := .CLOSE }],
            true) ∧
    ({ StockContext.init "7203" with
         state := .WAITING_EXIT, exit_order_id := "X2",
         exit_start_time := some 41160,
         timeout_exit_start_time := some 41160, exit_price := 0 }
      : StockContext) ≠
      { StockContext.init "7203" with
          state := .WAITING_TIMEOUT_EXIT, exit_order_id := "X2",
          exit_start_time := some 41160,
          timeout_exit_start_time := some 41160, exit_price := 100 } := by
  refine ⟨rfl, rfl, by decide⟩

/-- **C1, amended.**  Against any gateway that accepts every order with
non-empty ids (distinct across entry/exit requests), a completed round trip
IDLE → WAITING_ENTRY → (entry fill) → WAITING_EXIT → (exit fill) → IDLE
increases `trade_count` by exactly 1 and ends with `exit_order_id` empty —
but `entry_order_id` is **not** cleared by the entry fill, so the final
IDLE context still carries the filled entry order's id.  (The
`exitOrderId ≠ "" ⇔ state ∈ {WAITING_EXIT, WAITING_TIMEOUT_EXIT}` half of
the claimed invariant holds along this trip; the `entryOrderId` half fails
from the entry fill onwards.) -/
theorem C1_round_trip_keeps_stale_entry_id (env : Env) (p : Params)
    (ctx0 : StockContext) (price : ℚ) (dir : Direction)
    (idOf : OrderRequest → String) (oE oX : OrderData)
    (c1 c2 c3 : StockContext)
    (h0state : ctx0.state = .IDLE)
    (h0entry : ctx0.entry_order_id = "")
    (h0exit : ctx0.exit_order_id = "")
    (hsend : ∀ r, env.send_order r = some (idOf r))
    (hne : ∀ r, idOf r ≠ "")
    (hdiff : ∀ r1 r2, r1.offset = .OPEN → r2.offset = .CLOSE → idOf r1 ≠ idOf r2)
    (hc1 : (execute_entry env ctx0 price dir).1 = c1)
    (hoEid : oE.orderid = c1.entry_order_id)
    (hoEst : oE.status = .ALLTRADED)
    (hc2 : (on_order env p c1 oE).1 = c2)
    (hoXid : oX.orderid = c2.exit_order_id)
    (hoXst : oX.status = .ALLTRADED)
    (hc3 : (on_order env p c2 oX).1 = c3) :
    c1.state = .WAITING_ENTRY ∧ c1.entry_order_id ≠ "" ∧
    c1.exit_order_id = "" ∧
    c2.state = .WAITING_EXIT ∧ c2.exit_order_id ≠ "" ∧
    c3.state = .IDLE ∧ c3.exit_order_id = "" ∧
    c3.trade_count = ctx0.trade_count + 1 ∧
    c3.entry_order_id = c1.entry_order_id ∧ c3.entry_order_id ≠ "" := by
  have hopen := execute_trade_open_spec env ctx0 price dir .LIMIT idOf hsend
  have hc1red : (execute_entry env ctx0 price dir).1 =
      (execute_trade env ctx0 price dir .OPEN .LIMIT).1 :=
    execute_entry_of_sent env ctx0 price dir _ hopen.2.2.2.2
  subst hc1
  rw [hc1red] at hoEid hc2 ⊢
  have h1state : (execute_trade env ctx0 price dir .OPEN .LIMIT).1.state =
      .WAITING_ENTRY := hopen.1
  have h1entry := hopen.2.1
  have h1ne : (execute_trade env ctx0 price dir .OPEN .LIMIT).1.entry_order_id ≠ "" := by
    rw [h1entry]; exact hne _
  have h1exit : (execute_trade env ctx0 price dir .OPEN .LIMIT).1.exit_order_id = "" := by
    rw [hopen.2.2.1]; exact h0exit
  have h1count : (execute_trade env ctx0 price dir .OPEN .LIMIT).1.trade_count =
      ctx0.trade_count := hopen.2.2.2.1
  -- step 2: entry fill
  have hdisp1 : (on_order env p (execute_trade env ctx0 price dir .OPEN .LIMIT).1 oE).1 =
      (handle_entry_order_update env p
        (execute_trade env ctx0 price dir .OPEN .LIMIT).1 oE).1 := by
    simp only [on_order, if_pos hoEid]
  obtain ⟨reqX, hreqX, hs2, hx2, he2, ht2⟩ :=
    handle_entry_alltraded_spec env p
      (execute_trade env ctx0 price dir .OPEN .LIMIT).1 oE idOf hsend hoEst
  rw [hdisp1] at hc2
  subst hc2
  -- step 3: exit fill
  have hne2 : oX.orderid ≠
      (handle_entry_order_update env p
        (execute_trade env ctx0 price dir .OPEN .LIMIT).1 oE).1.entry_order_id := by
    rw [hoXid, hx2, he2, h1entry]
    exact (hdiff _ reqX rfl hreqX).symm
  have hdisp2 : (on_order env p
      (handle_entry_order_update env p
        (execute_trade env ctx0 price dir .OPEN .LIMIT).1 oE).1 oX).1 =
      (handle_exit_order_update
        (handle_entry_order_update env p
          (execute_trade env ctx0 price dir .OPEN .LIMIT).1 oE).1 oX).1 := by
    simp only [on_order, if_neg hne2, if_pos hoXid]
  obtain ⟨hs3, hx3, ht3, he3⟩ :=
    handle_exit_alltraded_spec
      (handle_entry_order_update env p
        (execute_trade env ctx0 price dir .OPEN .LIMIT).1 oE).1 oX hoXst
  rw [hdisp2] at hc3
  subst hc3
  refine ⟨h1state, h1ne, h1exit, hs2, ?_, hs3, hx3, ?_, ?_, ?_⟩
  · rw [hx2]; exact hne reqX
  · rw [ht3, ht2, h1count]
  · rw [he3, he2]
  · rw [he3, he2]; exact h1ne

/-- **C1, counterexample.**  A concrete completed round trip (entry "E1"
fills, exit "X1" fills) ends in `IDLE` with `trade_count = 1` and
`exit_order_id = ""` — but `entry_order_id` is still `"E1"`, refuting both
`entryOrderId ≠ "" ⇔ state = WAITING_ENTRY` and "a completed round trip
ending in IDLE leaves both order-id fields empty". -/
theorem C1_counterexample :
    (on_order
        { send_order := fun r => some (if r.offset = .OPEN then "E1" else "X1"),
          cancel_ok := fun _ => true, current_bar := none,
          last_tick_price := none, get_indicators := none,
          now := 1000, gap_dir := .up, next_tick_price := fun _ q _ => q }
        {}
        (on_order
          { send_order := fun r => some (if r.offset = .OPEN then "E1" else "X1"),
            cancel_ok := fun _ => true, current_bar := none,
            last_tick_price := none, get_indicators := none,
            now := 1000, gap_dir := .up, next_tick_price := fun _ q _ => q }
          {}
          (execute_entry
            { send_order := fun r => some (if r.offset = .OPEN then "E1" else "X1"),
              cancel_ok := fun _ => true, current_bar := none,
              last_tick_price := none, get_indicators := none,
              now := 1000, gap_dir := .up, next_tick_price := fun _ q _ => q }
            (StockContext.init "7203") 100 .SHORT).1
          { orderid := "E1", status := .ALLTRADED, otype := .LIMIT,
            price := 100, traded := 0, datetime := none }).1
        { orderid := "X1", status := .ALLTRADED, otype := .LIMIT,
          price := 99, traded := 0, datetime := none }).1.state =
      StrategyState.IDLE ∧
    (on_order
        { send_order := fun r => some (if r.offset = .OPEN then "E1" else "X1"),
          cancel_ok := fun _ => true, current_bar := none,
          last_tick_price := none, get_indicators := none,
          now := 1000, gap_dir := .up, next_tick_price := fun _ q _ => q }
        {}
        (on_order
          { send_order := fun r => some (if r.offset = .OPEN then "E1" else "X1"),
            cancel_ok := fun _ => true, current_bar := none,
            last_tick_price := none, get_indicators := none,
            now := 1000, gap_dir := .up, next_tick_price := fun _ q _ => q }
          {}
          (execute_entry
            { send_order := fun r => some (if r.offset = .OPEN then "E1" else "X1"),
              cancel_ok := fun _ => true, current_bar := none,
              last_tick_price := none, get_indicators := none,
              now := 1000, gap_dir := .up, next_tick_price := fun _ q _ => q }
            (StockContext.init "7203") 100 .SHORT).1
          { orderid := "E1", status := .ALLTRADED, otype := .LIMIT,
            price := 100, traded := 0, datetime := none }).1
        { orderid := "X1", status := .ALLTRADED, otype := .LIMIT,
          price := 99, traded := 0, datetime := none }).1.trade_count = 1 ∧
    (on_order
        { send_order := fun r => some (if r.offset = .OPEN then "E1" else "X1"),
          cancel_ok := fun _ => true, current_bar := none,
          last_tick_price := none, get_indicators := none,
          now := 1000, gap_dir := .up, next_tick_price := fun _ q _ => q }
        {}
        (on_order
          { send_order := fun r => some (if r.offset = .OPEN then "E1" else "X1"),
            cancel_ok := fun _ => true, current_bar := none,
            last_tick_price := none, get_indicators := none,
            now := 1000, gap_dir := .up, next_tick_price := fun _ q _ => q }
          {}
          (execute_entry
            { send_order := fun r => some (if r.offset = .OPEN then "E1" else "X1"),
              cancel_ok := fun _ => true, current_bar := none,
              last_tick_price := none, get_indicators := none,
              now := 1000, gap_dir := .up, next_tick_price := fun _ q _ => q }
            (StockContext.init "7203") 100 .SHORT).1
          { orderid := "E1", status := .ALLTRADED, otype := .LIMIT,
            price := 100, traded := 0, datetime := none }).1
        { orderid := "X1", status := .ALLTRADED, otype := .LIMIT,
          price := 99, traded := 0, datetime := none }).1.exit_order_id = "" ∧
    (on_order
        { send_order := fun r => some (if r.offset = .OPEN then "E1" else "X1"),
          cancel_ok := fun _ => true, current_bar := none,
          last_tick_price := none, get_indicators := none,
          now := 1000, gap_dir := .up, next_tick_price := fun _ q _ => q }
        {}
        (on_order
          { send_order := fun r => some (if r.offset = .OPEN then "E1" else "X1"),
            cancel_ok := fun _ => true, current_bar := none,
            last_tick_price := none, get_indicators := none,
            now := 1000, gap_dir := .up, next_tick_price := fun _ q _ => q }
          {}
          (execute_entry
            { send_order := fun r => some (if r.offset = .OPEN then "E1" else "X1"),
              cancel_ok := fun _ => true, current_bar := none,
              last_tick_price := none, get_indicators := none,
              now := 1000, gap_dir := .up, next_tick_price := fun _ q _ => q }
            (StockContext.init "7203") 100 .SHORT).1
          { orderid := "E1", status := .ALLTRADED, otype := .LIMIT,
            price := 100, traded := 0, datetime := none }).1
        { orderid := "X1", status := .ALLTRADED, otype := .LIMIT,
          price := 99, traded := 0, datetime := none }).1.entry_order_id = "E1" := by
  refine ⟨rfl, rfl, rfl, rfl⟩

/-- **C1, witness.**  The concrete round trip of the counterexample,
obtained through the amended theorem: final state `IDLE`, exit id empty,
`trade_count` 1, and the stale entry id "E1". -/
theorem C1_round_trip_keeps_stale_entry_id_witness :
    ({ StockContext.init "7203" with
         state := .IDLE, trade_count := 1, entry_order_id := "E1",
         entry_price := 100, entry_time := none, exit_order_id := "",
         exit_price := 99, exit_start_time := some 1000 }
      : StockContext).state = .IDLE ∧
    ({ StockContext.init "7203" with
         state := .IDLE, trade_count := 1, entry_order_id := "E1",
         entry_price := 100, entry_time := none, exit_order_id := "",
         exit_price := 99, exit_start_time := some 1000 }
      : StockContext).exit_order_id = "" ∧
    ({ StockContext.init "7203" with
         state := .IDLE, trade_count := 1, entry_order_id := "E1",
         entry_price := 100, entry_time := none, exit_order_id := "",
         exit_price := 99, exit_start_time := some 1000 }
      : StockContext).trade_count = 0 + 1 ∧
    ({ StockContext.init "7203" with
         state := .IDLE, trade_count := 1, entry_order_id := "E1",
         entry_price := 100, entry_time := none, exit_order_id := "",
         exit_price := 99, exit_start_time := some 1000 }
      : StockContext).entry_order_id ≠ "" := by
  have h := C1_round_trip_keeps_stale_entry_id
    { send_order := fun r => some (if r.offset = .OPEN then "E1" else "X1"),
      cancel_ok := fun _ => true, current_bar := none,
      last_tick_price := none, get_indicators := none,
      now := 1000, gap_dir := .up, next_tick_price := fun _ _ _ => 99 }
    {}
    (StockContext.init "7203") 100 .SHORT
    (fun r => if r.offset = .OPEN then "E1" else "X1")
    { orderid := "E1", status := .ALLTRADED, otype := .LIMIT,
      price := 100, traded := 0, datetime := none }
    { orderid := "X1", status := .ALLTRADED, otype := .LIMIT,
      price := 99, traded := 0, datetime := none }
    { StockContext.init "7203" with
        state := .WAITING_ENTRY, entry_order_id := "E1",
        entry_price := 100, entry_time := some 1000 }
    { StockContext.init "7203" with
        state := .WAITING_EXIT, entry_order_id := "E1",
        entry_price := 100, entry_time := none, exit_order_id := "X1",
        exit_price := 99, exit_start_time := some 1000 }
    { StockContext.init "7203" with
        state := .IDLE, trade_count := 1, entry_order_id := "E1",
        entry_price := 100, entry_time := none, exit_order_id := "",
        exit_price := 99, exit_start_time := some 1000 }
    rfl rfl rfl
    (fun r => rfl)
    (fun r => by cases hro : r.offset <;> simp [hro])
    (fun r1 r2 h1 h2 => by simp [h1, h2])
    (by decide) rfl rfl (by decide) rfl rfl (by decide)
  exact ⟨h.2.2.2.2.2.1, h.2.2.2.2.2.2.1, h.2.2.2.2.2.2.2.1, h.2.2.2.2.2.2.2.2.2⟩

/-- **C3, witness.**  At 29 minutes on the code's clock (≥ 30 − 1), the
escalation fires: the context moves to `WAITING_TIMEOUT_EXIT` and the new
limit order is quoted at the in-progress bar's close 100. -/
theorem C3_first_stage_timeout_escalation_witness :
    (start_timeout_exit
        { send_order := fun _ => some "X2", cancel_ok := fun _ => true,
          current_bar := some { symbol := "7203", datetime := 1680,
                                open_price := 100, high_price := 101,
                                low_price := 99, close_price := 100,
                                volume := 10 },
          last_tick_price := none, get_indicators := none,
          now := 1740, gap_dir := .up, next_tick_price := fun _ q _ => q }
        { StockContext.init "7203" with
            state := .WAITING_EXIT, exit_order_id := "X1",
            exit_start_time := some 0, exit_price := 99 }).1.state =
      .WAITING_TIMEOUT_EXIT ∧
    (start_timeout_exit
        { send_order := fun _ => some "X2", cancel_ok := fun _ => true,
          current_bar := some { symbol := "7203", datetime := 1680,
                                open_price := 100, high_price := 101,
                                low_price := 99, close_price := 100,
                                volume := 10 },
          last_tick_price := none, get_indicators := none,
          now := 1740, gap_dir := .up, next_tick_price := fun _ q _ => q }
        { StockContext.init "7203" with
            state := .WAITING_EXIT, exit_order_id := "X1",
            exit_start_time := some 0, exit_price := 99 }).2 =
      [Effect.sendOrder
        { symbol := "7203", direction := .LONG, otype := .LIMIT,
          volume := 100, price := 100, offset := .CLOSE }] := by
  have h := (C3_first_stage_timeout_escalation
      { send_order := fun _ => some "X2", cancel_ok := fun _ => true,
        current_bar := some { symbol := "7203", datetime := 1680,
                              open_price := 100, high_price := 101,
                              low_price := 99, close_price := 100,
                              volume := 10 },
        last_tick_price := none, get_indicators := none,
        now := 1740, gap_dir := .up, next_tick_price := fun _ q _ => q }
      {}
      { StockContext.init "7203" with
          state := .WAITING_EXIT, exit_order_id := "X1",
          exit_start_time := some 0, exit_price := 99 }
      { symbol := "7203", datetime := 1680, open_price := 100,
        high_price := 101, low_price := 99, close_price := 100, volume := 10 }
      0
      { symbol := "7203", datetime := 1680, open_price := 100,
        high_price := 101, low_price := 99, close_price := 100, volume := 10 }
      rfl rfl (by decide) rfl rfl).1
    (Or.inl (by decide))
  exact ⟨h.2.1, h.2.2⟩

end Brisk
